import Mathlib

/-!
Verification of the pbrt scene-description state machine
(`src/pbrt/genscene.cpp`): a shallow embedding of the `GeneralScene`
directive interpreter, the `TransformCache` interner, the graphics-state /
transform / active-bits stacks and the entity accumulator lists, together
with theorems about the properties the specification states for them.
-/

namespace PbrtScene

/-- 4×4 rational matrix standing for pbrt's `SquareMatrix<4>` of floats.
The claims under study are about which matrix is stored where, never about
floating-point rounding, so exact rationals are used. -/
abbrev M4 := Matrix (Fin 4) (Fin 4) ℚ

/-- Modelled from the spec: a `Transform` is "an immutable 4×4 affine matrix
value plus its inverse" (the class itself lives in `transform.h`, which is
not part of the reviewed sources). -/
structure Transform where
  m : M4
  mInv : M4
deriving DecidableEq

/-- `pbrt::Transform()` — the identity transform. -/
def Transform.id : Transform := ⟨1, 1⟩

instance : One Transform := ⟨Transform.id⟩

/-- Modelled from the spec: transform composition; the matrix parts multiply
and the inverse parts multiply in the reverse order. -/
instance : Mul Transform := ⟨fun a b => ⟨a.m * b.m, b.mInv * a.mInv⟩⟩

/-- `pbrt::Inverse(Transform)`: swaps the stored matrix and its inverse. -/
def Transform.inverse (t : Transform) : Transform := ⟨t.mInv, t.m⟩

/-- Modelled from the spec: `pbrt::Transpose(Transform)` transposes both
stored matrices ("transposed from row-major input"). -/
def Transform.transposeT (t : Transform) : Transform := ⟨t.m.transpose, t.mInv.transpose⟩

/-- Modelled from the spec: a hash "computed from the transform's own
content"; the exact mixing function is not part of the reviewed sources.
Theorem `TransformCache.lookup_hash_irrelevant` below shows that the result
of `TransformCache.Lookup` does not depend on this choice. -/
def Transform.contentHash (t : Transform) : ℕ :=
  (t.m 0 0).num.natAbs + (t.m 3 3).den

namespace TransformCache

/-- The interner's storage: the stored `Transform` instances in allocation
order.  A handle (C++ `Transform *`) is the index of the stored instance. -/
abbrev Store := List Transform

/-- `**iter == t` restricted to the hash bucket of `t`: the C++ walks only
the bucket `t.Hash() % hashTable.bucket_count()` and compares candidates by
full value equality. -/
def bucketEq (hash : Transform → ℕ) (nb : ℕ) (u t : Transform) : Bool :=
  hash u % nb = hash t % nb && u = t

/-- Index of the first stored instance satisfying `p` (the hash-table
iteration of `Lookup`, with handles as indices). -/
def findIndex (p : Transform → Bool) : Store → Option ℕ
  | [] => none
  | u :: rest => if p u then some 0 else (findIndex p rest).map (· + 1)

/-- `TransformCache::Lookup`: if the table is non-empty, scan the bucket of
`t` for a value-equal stored transform and return it on a hit; otherwise
allocate a fresh instance, record it, and return the fresh handle. -/
def Lookup (hash : Transform → ℕ) (nb : ℕ) (c : Store) (t : Transform) :
    ℕ × Store :=
  match (if c.isEmpty then none else findIndex (fun u => bucketEq hash nb u t) c) with
  | some i => (i, c)
  | none => (c.length, c ++ [t])

end TransformCache

/-- Source location attached to every directive (`FileLoc`), modelled as an
opaque token. -/
abbrev FileLoc := ℕ

/-- A `ParsedParameter` as the scene code observes it: an opaque payload
token plus the two fields the `Attribute` directive mutates
(`mayBeUnused` and the captured color space). -/
structure ParsedParameter where
  tok : ℕ
  mayBeUnused : Bool
  colorSpace : String
deriving DecidableEq

abbrev ParsedParameterVector := List ParsedParameter

/-- `ParameterDictionary`: the directive's own parameters, the inherited
default-attribute list merged in, and the color space active at
construction time. -/
structure ParameterDictionary where
  params : ParsedParameterVector
  attributes : ParsedParameterVector
  colorSpace : String
deriving DecidableEq

/-- Two-argument `ParameterDictionary` constructor (no inherited list). -/
def mkDict1 (params : ParsedParameterVector) (cs : String) : ParameterDictionary :=
  ⟨params, [], cs⟩

/-- Three-argument `ParameterDictionary` constructor. -/
def mkDict (params attrs : ParsedParameterVector) (cs : String) : ParameterDictionary :=
  ⟨params, attrs, cs⟩

/-- A handle into the `TransformCache` store (a C++ `const Transform *`). -/
abbrev Handle := ℕ

/-- `AnimatedTransform`: two interned transform handles with their times. -/
structure AnimatedTransform where
  startT : Handle
  startTime : ℚ
  endT : Handle
  endTime : ℚ
deriving DecidableEq

/-- `GeneralSceneEntity`: {type name, parameter dictionary, location}. -/
structure GeneralSceneEntity where
  name : String
  parameters : ParameterDictionary
  loc : FileLoc
deriving DecidableEq

/-- `TransformedSceneEntity`: a general entity plus a dual-time transform. -/
structure TransformedSceneEntity where
  name : String
  parameters : ParameterDictionary
  loc : FileLoc
  worldFromObject : AnimatedTransform
deriving DecidableEq

/-- `TextureSceneEntity` (the stored `texname` plus transform). -/
structure TextureSceneEntity where
  texName : String
  parameters : ParameterDictionary
  loc : FileLoc
  worldFromTexture : AnimatedTransform
deriving DecidableEq

/-- `LightSceneEntity`. -/
structure LightSceneEntity where
  name : String
  parameters : ParameterDictionary
  loc : FileLoc
  worldFromLight : AnimatedTransform
  medium : String
deriving DecidableEq

/-- `CameraSceneEntity`. -/
structure CameraSceneEntity where
  name : String
  parameters : ParameterDictionary
  loc : FileLoc
  worldFromCamera : AnimatedTransform
  medium : String
deriving DecidableEq

/-- `ShapeSceneEntity` (static storage). -/
structure ShapeSceneEntity where
  name : String
  parameters : ParameterDictionary
  loc : FileLoc
  worldFromObject : Handle
  objectFromWorld : Handle
  reverseOrientation : Bool
  materialIndex : Int
  materialName : String
  lightIndex : Int
  insideMedium : String
  outsideMedium : String
deriving DecidableEq

/-- `AnimatedShapeSceneEntity` (animated storage, with the explicit
identity handle for the second required transform slot). -/
structure AnimatedShapeSceneEntity where
  name : String
  parameters : ParameterDictionary
  loc : FileLoc
  worldFromShape : AnimatedTransform
  identityH : Handle
  reverseOrientation : Bool
  materialIndex : Int
  materialName : String
  lightIndex : Int
  insideMedium : String
  outsideMedium : String
deriving DecidableEq

/-- `InstanceSceneEntity`: either an animated or a static
world-from-instance transform (the other one null). -/
structure InstanceSceneEntity where
  name : String
  loc : FileLoc
  animatedWorldFromInstance : Option AnimatedTransform
  worldFromInstance : Option Handle
deriving DecidableEq

/-- The three-state API gate. -/
inductive APIState
  | uninitialized
  | optionsBlock
  | worldBlock
deriving DecidableEq

/-- Nesting-kind marker pushed by scope-opening directives (the source's
`'a'` / `'t'` / `'o'` chars). -/
inductive PushKind
  | a
  | t
  | o
deriving DecidableEq

/-- `GeneralScene::GraphicsState`. -/
structure GraphicsState where
  currentInsideMedium : String
  currentOutsideMedium : String
  currentMaterialIndex : Int
  currentMaterialName : String
  areaLightName : String
  areaLightParams : ParameterDictionary
  areaLightLoc : FileLoc
  colorSpace : String
  reverseOrientation : Bool
  shapeAttributes : ParsedParameterVector
  lightAttributes : ParsedParameterVector
  materialAttributes : ParsedParameterVector
  mediumAttributes : ParsedParameterVector
  textureAttributes : ParsedParameterVector
deriving DecidableEq

/-- `GraphicsState()` constructor: all fields default, material index 0,
color space `RGBColorSpace::sRGB`. -/
def GraphicsState.init : GraphicsState :=
  ⟨"", "", 0, "", "", ⟨[], [], ""⟩, 0, "sRGB", false, [], [], [], [], []⟩

/-- A `TransformSet`: the two time-indexed current transforms. -/
abbrev TransformSet := Fin 2 → Transform

/-- `Inverse(TransformSet)`: pointwise. -/
def TransformSet.inverseS (ts : TransformSet) : TransformSet :=
  fun i => (ts i).inverse

/-- `TransformSet::IsAnimated`: the slots differ between the time indices. -/
def TransformSet.IsAnimated (ts : TransformSet) : Prop := ts 0 ≠ ts 1

instance (ts : TransformSet) : Decidable ts.IsAnimated := by
  unfold TransformSet.IsAnimated; infer_instance

/-- `GeneralScene`: the full interpreter state. -/
structure GeneralScene where
  currentApiState : APIState
  graphicsState : GraphicsState
  curTransform : TransformSet
  activeTransformBits : ℕ
  cameraFromWorldT : TransformSet
  transformStartTime : ℚ
  transformEndTime : ℚ
  namedCoordinateSystems : String → Option TransformSet
  pushedGraphicsStates : List GraphicsState
  pushedTransforms : List TransformSet
  pushedActiveTransformBits : List ℕ
  pushStack : List (PushKind × FileLoc)
  cache : TransformCache.Store
  camera : Option CameraSceneEntity
  film : GeneralSceneEntity
  filter : GeneralSceneEntity
  sampler : GeneralSceneEntity
  integrator : GeneralSceneEntity
  accelerator : GeneralSceneEntity
  namedMaterials : String → Option GeneralSceneEntity
  materials : List GeneralSceneEntity
  media : String → Option TransformedSceneEntity
  floatTextures : List (String × TextureSceneEntity)
  spectrumTextures : List (String × TextureSceneEntity)
  lights : List LightSceneEntity
  areaLights : List GeneralSceneEntity
  shapes : List ShapeSceneEntity
  animatedShapes : List AnimatedShapeSceneEntity
  instanceDefinitions :
    String → Option (List ShapeSceneEntity × List AnimatedShapeSceneEntity)
  currentInstance : Option String
  instances : List InstanceSceneEntity
  haveScatteringMedia : Bool
  recoverableErrors : ℕ
  warnings : ℕ

/-- `MaxTransforms = 2`; `AllTransformsBits` selects both time indices,
`StartTransformBits` bit 0, `EndTransformBits` bit 1 (constants from the
header, with the values the spec gives: "a bitmask over the two time
indices", default both). -/
def AllTransformsBits : ℕ := 3

def StartTransformBits : ℕ := 1

def EndTransformBits : ℕ := 2

/-- `GeneralScene::GeneralScene()`: the fresh container starts directly in
`OptionsBlock`, with a default "diffuse" material already at index 0 of the
ordered material list, a default gaussian filter and rgb film. -/
def GeneralScene.initScene : GeneralScene where
  currentApiState := .optionsBlock
  graphicsState := .init
  curTransform := fun _ => 1
  activeTransformBits := AllTransformsBits
  cameraFromWorldT := fun _ => 1
  transformStartTime := 0
  transformEndTime := 1
  namedCoordinateSystems := fun _ => none
  pushedGraphicsStates := []
  pushedTransforms := []
  pushedActiveTransformBits := []
  pushStack := []
  cache := []
  camera := none
  film := ⟨"rgb", ⟨[], [], ""⟩, 0⟩
  filter := ⟨"gaussian", ⟨[], [], ""⟩, 0⟩
  sampler := ⟨"", ⟨[], [], ""⟩, 0⟩
  integrator := ⟨"", ⟨[], [], ""⟩, 0⟩
  accelerator := ⟨"", ⟨[], [], ""⟩, 0⟩
  namedMaterials := fun _ => none
  materials := [⟨"diffuse", ⟨[], [], "sRGB"⟩, 0⟩]
  media := fun _ => none
  floatTextures := []
  spectrumTextures := []
  lights := []
  areaLights := []
  shapes := []
  animatedShapes := []
  instanceDefinitions := fun _ => none
  currentInstance := none
  instances := []
  haveScatteringMedia := false
  recoverableErrors := 0
  warnings := 0

/-- A directive call either aborts scene construction (`ErrorExit`, modelled
as `.error ()`) or yields the next interpreter state. -/
abbrev StepResult := Except Unit GeneralScene

/-- `Error(...)` followed by `return`: a recoverable error is counted and
the directive is otherwise ignored. -/
def recErr (s : GeneralScene) : GeneralScene :=
  { s with recoverableErrors := s.recoverableErrors + 1 }

/-- `Warning(...)`: counted, processing continues. -/
def warn1 (s : GeneralScene) : GeneralScene :=
  { s with warnings := s.warnings + 1 }

/-- `VERIFY_INITIALIZED`: before initialization every directive is a
recoverable error. -/
def verifyInitialized (s : GeneralScene) (k : GeneralScene → StepResult) : StepResult :=
  if s.currentApiState = .uninitialized then .ok (recErr s) else k s

/-- `VERIFY_OPTIONS`: additionally rejected (recoverably) inside the world
block. -/
def verifyOptions (s : GeneralScene) (k : GeneralScene → StepResult) : StepResult :=
  verifyInitialized s fun s =>
    if s.currentApiState = .worldBlock then .ok (recErr s) else k s

/-- `VERIFY_WORLD`: additionally rejected (recoverably) in the options
block. -/
def verifyWorld (s : GeneralScene) (k : GeneralScene → StepResult) : StepResult :=
  verifyInitialized s fun s =>
    if s.currentApiState = .optionsBlock then .ok (recErr s) else k s

/-- `FOR_ACTIVE_TRANSFORMS(expr)`: apply `f` to exactly the slots whose bit
is set in `activeTransformBits`. -/
def forActiveTransforms (s : GeneralScene) (f : Transform → Transform) : TransformSet :=
  fun i =>
    if s.activeTransformBits.testBit (i : ℕ) then f (s.curTransform i)
    else s.curTransform i

/-- Bucket count used when the interner consults its hash table; by
`TransformCache.lookup_params_irrelevant` below the lookup result does not
depend on this choice (nor on `Transform.contentHash`). -/
def nBuckets : ℕ := 8

/-- The scene's cache consults `TransformCache::Lookup` with the content
hash. -/
def cLookup (c : TransformCache.Store) (t : Transform) : Handle × TransformCache.Store :=
  TransformCache.Lookup Transform.contentHash nBuckets c t

/-- Modelled from the spec: `GetCTM(index)` is declared in the scene
header, which is not among the reviewed sources.  It freezes the current
transform into render space: the camera translation-only transform composed
with the current transform, so that the camera-relative offset is "baked in
at Camera-directive time" (spec section 4.5). -/
def GeneralScene.GetCTM (s : GeneralScene) (i : Fin 2) : Transform :=
  s.cameraFromWorldT i * s.curTransform i

/-- Overwrite-insert into a name-keyed registry (`std::map::operator[]`). -/
def updateMap {β : Type} (m : String → Option β) (k : String) (v : β) :
    String → Option β :=
  fun q => if q = k then some v else m q

/-- `GeneralScene::Identity`. -/
def GeneralScene.Identity (loc : FileLoc) (s : GeneralScene) : StepResult :=
  verifyInitialized s fun s =>
    .ok { s with curTransform := forActiveTransforms s fun _ => Transform.id }

/-- `GeneralScene::Translate`.  The numeric arguments only feed
`pbrt::Translate` (transform.h, not among the reviewed sources); the
handler is modelled as receiving the resulting operator transform `op`. -/
def GeneralScene.Translate (op : Transform) (loc : FileLoc) (s : GeneralScene) : StepResult :=
  verifyInitialized s fun s =>
    .ok { s with curTransform := forActiveTransforms s fun t => t * op }

/-- `GeneralScene::Transform`: replaces each selected slot outright with
the transpose of the supplied row-major matrix (the `pbrt::Transform`
constructor pairs `tr` with its inverse; the payload carries that pair). -/
def GeneralScene.TransformDirective (tr : Transform) (loc : FileLoc) (s : GeneralScene) : StepResult :=
  verifyInitialized s fun s =>
    .ok { s with curTransform := forActiveTransforms s fun _ => tr.transposeT }

/-- `GeneralScene::ConcatTransform`. -/
def GeneralScene.ConcatTransform (tr : Transform) (loc : FileLoc) (s : GeneralScene) : StepResult :=
  verifyInitialized s fun s =>
    .ok { s with curTransform := forActiveTransforms s fun t => t * tr.transposeT }

/-- `GeneralScene::Rotate`; `op` is the `pbrt::Rotate(angle, axis)`
operator transform (constructor not among the reviewed sources). -/
def GeneralScene.Rotate (op : Transform) (loc : FileLoc) (s : GeneralScene) : StepResult :=
  verifyInitialized s fun s =>
    .ok { s with curTransform := forActiveTransforms s fun t => t * op }

/-- `GeneralScene::Scale`; `op` is the `pbrt::Scale` operator transform. -/
def GeneralScene.Scale (op : Transform) (loc : FileLoc) (s : GeneralScene) : StepResult :=
  verifyInitialized s fun s =>
    .ok { s with curTransform := forActiveTransforms s fun t => t * op }

/-- `GeneralScene::LookAt`; `op` is the `pbrt::LookAt` operator transform,
computed once and post-multiplied onto every selected slot. -/
def GeneralScene.LookAt (op : Transform) (loc : FileLoc) (s : GeneralScene) : StepResult :=
  verifyInitialized s fun s =>
    .ok { s with curTransform := forActiveTransforms s fun t => t * op }

/-- `GeneralScene::CoordinateSystem`: `namedCoordinateSystems[name] =
curTransform` — an unconditional overwrite. -/
def GeneralScene.CoordinateSystem (name : String) (loc : FileLoc) (s : GeneralScene) : StepResult :=
  verifyInitialized s fun s =>
    .ok { s with namedCoordinateSystems :=
                   updateMap s.namedCoordinateSystems name s.curTransform }

/-- `GeneralScene::CoordSysTransform`: restore if defined, else warn. -/
def GeneralScene.CoordSysTransform (name : String) (loc : FileLoc) (s : GeneralScene) : StepResult :=
  verifyInitialized s fun s =>
    match s.namedCoordinateSystems name with
    | some ts => .ok { s with curTransform := ts }
    | none => .ok (warn1 s)

/-- `GeneralScene::ActiveTransformAll`: note that the source performs no
API-state verification at all for the three ActiveTransform directives. -/
def GeneralScene.ActiveTransformAll (loc : FileLoc) (s : GeneralScene) : StepResult :=
  .ok { s with activeTransformBits := AllTransformsBits }

/-- `GeneralScene::ActiveTransformEndTime` (unverified, like the above). -/
def GeneralScene.ActiveTransformEndTime (loc : FileLoc) (s : GeneralScene) : StepResult :=
  .ok { s with activeTransformBits := EndTransformBits }

/-- `GeneralScene::ActiveTransformStartTime` (unverified, like the above). -/
def GeneralScene.ActiveTransformStartTime (loc : FileLoc) (s : GeneralScene) : StepResult :=
  .ok { s with activeTransformBits := StartTransformBits }

/-- `GeneralScene::TransformTimes` (options-block only). -/
def GeneralScene.TransformTimes (start finish : ℚ) (loc : FileLoc) (s : GeneralScene) : StepResult :=
  verifyOptions s fun s =>
    .ok { s with transformStartTime := start, transformEndTime := finish }

/-- Modelled from the spec: `RGBColorSpace::GetNamed` is not among the
reviewed sources; the spec says only that an unknown color-space name is a
recoverable error.  The registry is modelled as a fixed set of names. -/
def getNamedColorSpace (n : String) : Option String :=
  if n = "srgb" ∨ n = "rec2020" ∨ n = "aces2065-1" ∨ n = "dci-p3" then some n
  else none

/-- `GeneralScene::ColorSpace`. -/
def GeneralScene.ColorSpace (n : String) (loc : FileLoc) (s : GeneralScene) : StepResult :=
  verifyInitialized s fun s =>
    match getNamedColorSpace n with
    | some cs => .ok { s with graphicsState := { s.graphicsState with colorSpace := cs } }
    | none => .ok (recErr s)

/-- `GeneralScene::PixelFilter` (the dictionary is built before the
verification, as in the source). -/
def GeneralScene.PixelFilter (name : String) (params : ParsedParameterVector)
    (loc : FileLoc) (s : GeneralScene) : StepResult :=
  let dict := mkDict1 params s.graphicsState.colorSpace
  verifyOptions s fun s => .ok { s with filter := ⟨name, dict, loc⟩ }

/-- `GeneralScene::Film`. -/
def GeneralScene.Film (type : String) (params : ParsedParameterVector)
    (loc : FileLoc) (s : GeneralScene) : StepResult :=
  let dict := mkDict1 params s.graphicsState.colorSpace
  verifyOptions s fun s => .ok { s with film := ⟨type, dict, loc⟩ }

/-- `GeneralScene::Sampler`. -/
def GeneralScene.Sampler (name : String) (params : ParsedParameterVector)
    (loc : FileLoc) (s : GeneralScene) : StepResult :=
  let dict := mkDict1 params s.graphicsState.colorSpace
  verifyOptions s fun s => .ok { s with sampler := ⟨name, dict, loc⟩ }

/-- `GeneralScene::Accelerator`. -/
def GeneralScene.Accelerator (name : String) (params : ParsedParameterVector)
    (loc : FileLoc) (s : GeneralScene) : StepResult :=
  let dict := mkDict1 params s.graphicsState.colorSpace
  verifyOptions s fun s => .ok { s with accelerator := ⟨name, dict, loc⟩ }

/-- `GeneralScene::Integrator`. -/
def GeneralScene.Integrator (name : String) (params : ParsedParameterVector)
    (loc : FileLoc) (s : GeneralScene) : StepResult :=
  let dict := mkDict1 params s.graphicsState.colorSpace
  verifyOptions s fun s => .ok { s with integrator := ⟨name, dict, loc⟩ }

/-- Row-major translation matrix (used for `pbrt::Translate`). -/
def translateMatrix (v : Fin 3 → ℚ) : M4 :=
  Matrix.of fun i j =>
    if i = j then 1
    else if h : (i : ℕ) < 3 then (if (j : ℕ) = 3 then v ⟨i, h⟩ else 0) else 0

/-- Modelled from the spec: `pbrt::Translate` (transform.h, not among the
reviewed sources): "the camera's translation-only transform"; the
translation matrix paired with its exact inverse. -/
def translateT (v : Fin 3 → ℚ) : Transform :=
  ⟨translateMatrix v, translateMatrix (-v)⟩

/-- Modelled from the spec: applying a transform to a point (homogeneous
multiply with projective divide, as `Transform::operator()(Point3f)`). -/
def Transform.applyPoint (t : Transform) (p : Fin 3 → ℚ) : Fin 3 → ℚ :=
  let hom : Fin 4 → ℚ := fun j => if h : (j : ℕ) < 3 then p ⟨j, h⟩ else 1
  let r : Fin 4 → ℚ := fun i => ∑ j, t.m i j * hom j
  fun i => if r 3 = 1 then r i.castSucc else r i.castSucc / r 3

/-- `GeneralScene::Camera`: records the camera translation
`cameraFromWorldT`, snapshots the "camera" coordinate system, and builds
the camera entity from interned transforms. -/
def GeneralScene.Camera (name : String) (params : ParsedParameterVector)
    (loc : FileLoc) (s : GeneralScene) : StepResult :=
  let dict := mkDict1 params s.graphicsState.colorSpace
  verifyOptions s fun s =>
    let cameraFromWorld := s.curTransform
    let worldFromCamera := TransformSet.inverseS s.curTransform
    let newCFWT : TransformSet := fun i =>
      translateT (-(Transform.applyPoint (worldFromCamera i) fun _ => 0))
    let s := { s with
      cameraFromWorldT := newCFWT,
      namedCoordinateSystems :=
        updateMap s.namedCoordinateSystems "camera"
          (TransformSet.inverseS cameraFromWorld) }
    let l0 := cLookup s.cache ((cameraFromWorld 0 * (newCFWT 0).inverse).inverse)
    let l1 := cLookup l0.2 ((cameraFromWorld 1 * (newCFWT 1).inverse).inverse)
    .ok { s with
      cache := l1.2,
      camera := some ⟨name, dict, loc,
        ⟨l0.1, s.transformStartTime, l1.1, s.transformEndTime⟩,
        s.graphicsState.currentOutsideMedium⟩ }

/-- `GeneralScene::MakeNamedMedium`: redefinition is fatal; the medium's
dual-time transform is interned. -/
def GeneralScene.MakeNamedMedium (name : String) (params : ParsedParameterVector)
    (loc : FileLoc) (s : GeneralScene) : StepResult :=
  verifyInitialized s fun s =>
    let s := if s.curTransform.IsAnimated then warn1 s else s
    let dict := mkDict params s.graphicsState.mediumAttributes s.graphicsState.colorSpace
    if (s.media name).isSome then .error ()
    else
      let l0 := cLookup s.cache (s.GetCTM 0)
      let l1 := cLookup l0.2 (s.GetCTM 1)
      .ok { s with
        cache := l1.2,
        media := updateMap s.media name
          ⟨name, dict, loc, ⟨l0.1, s.transformStartTime, l1.1, s.transformEndTime⟩⟩ }

/-- `GeneralScene::MediumInterface`. -/
def GeneralScene.MediumInterface (insideName outsideName : String)
    (loc : FileLoc) (s : GeneralScene) : StepResult :=
  verifyInitialized s fun s =>
    .ok { s with
      graphicsState := { s.graphicsState with
        currentInsideMedium := insideName, currentOutsideMedium := outsideName },
      haveScatteringMedia := true }

/-- `GeneralScene::WorldBegin`: the one-way Options-to-World transition;
resets the current transform to identity, the bits to "both", and
snapshots "world". -/
def GeneralScene.WorldBegin (loc : FileLoc) (s : GeneralScene) : StepResult :=
  verifyOptions s fun s =>
    let s := { s with
      currentApiState := .worldBlock,
      curTransform := fun _ => Transform.id,
      activeTransformBits := AllTransformsBits }
    .ok { s with namedCoordinateSystems :=
                   updateMap s.namedCoordinateSystems "world" s.curTransform }

/-- `GeneralScene::AttributeBegin`: pushes the graphics state, the current
transform, the active bits and an `'a'` marker. -/
def GeneralScene.AttributeBegin (loc : FileLoc) (s : GeneralScene) : StepResult :=
  verifyWorld s fun s =>
    .ok { s with
      pushedGraphicsStates := s.pushedGraphicsStates ++ [s.graphicsState],
      pushedTransforms := s.pushedTransforms ++ [s.curTransform],
      pushedActiveTransformBits := s.pushedActiveTransformBits ++ [s.activeTransformBits],
      pushStack := s.pushStack ++ [(PushKind.a, loc)] }

/-- `GeneralScene::AttributeEnd`: an empty graphics-state stack is a
recoverable "Unmatched AttributeEnd"; otherwise all three stacks are popped
unconditionally and only then the nesting kind is checked (`'t'` or `'o'`
on top is fatal).  The final arm covers stacks out of sync, where the C++
would pop an empty vector (undefined behaviour); it is unreachable from
`initScene`. -/
def GeneralScene.AttributeEnd (loc : FileLoc) (s : GeneralScene) : StepResult :=
  verifyWorld s fun s =>
    if s.pushedGraphicsStates = [] then .ok (recErr s)
    else
      match s.pushedGraphicsStates.getLast?, s.pushedTransforms.getLast?,
            s.pushedActiveTransformBits.getLast?, s.pushStack.getLast? with
      | some g, some ts, some bits, some kl =>
        let s := { s with
          graphicsState := g,
          pushedGraphicsStates := s.pushedGraphicsStates.dropLast,
          curTransform := ts,
          pushedTransforms := s.pushedTransforms.dropLast,
          activeTransformBits := bits,
          pushedActiveTransformBits := s.pushedActiveTransformBits.dropLast }
        if kl.1 = PushKind.t ∨ kl.1 = PushKind.o then .error ()
        else .ok { s with pushStack := s.pushStack.dropLast }
      | _, _, _, _ => .error ()

/-- `GeneralScene::Attribute`: tags each parameter as may-be-unused with
the current color space and appends it to the targeted default list; an
unknown target is fatal. -/
def GeneralScene.Attribute (target : String) (attrib : ParsedParameterVector)
    (loc : FileLoc) (s : GeneralScene) : StepResult :=
  verifyInitialized s fun s =>
    let upd := attrib.map fun p =>
      { p with mayBeUnused := true, colorSpace := s.graphicsState.colorSpace }
    if target = "shape" then
      .ok { s with graphicsState := { s.graphicsState with
        shapeAttributes := s.graphicsState.shapeAttributes ++ upd } }
    else if target = "light" then
      .ok { s with graphicsState := { s.graphicsState with
        lightAttributes := s.graphicsState.lightAttributes ++ upd } }
    else if target = "material" then
      .ok { s with graphicsState := { s.graphicsState with
        materialAttributes := s.graphicsState.materialAttributes ++ upd } }
    else if target = "medium" then
      .ok { s with graphicsState := { s.graphicsState with
        mediumAttributes := s.graphicsState.mediumAttributes ++ upd } }
    else if target = "texture" then
      .ok { s with graphicsState := { s.graphicsState with
        textureAttributes := s.graphicsState.textureAttributes ++ upd } }
    else .error ()

/-- `GeneralScene::TransformBegin`: pushes only the current transform, the
active bits and a `'t'` marker — the graphics-state stack is not touched. -/
def GeneralScene.TransformBegin (loc : FileLoc) (s : GeneralScene) : StepResult :=
  verifyWorld s fun s =>
    .ok { s with
      pushedTransforms := s.pushedTransforms ++ [s.curTransform],
      pushedActiveTransformBits := s.pushedActiveTransformBits ++ [s.activeTransformBits],
      pushStack := s.pushStack ++ [(PushKind.t, loc)] }

/-- `GeneralScene::TransformEnd` (mirror of `AttributeEnd` for the
transform stacks; `'a'` or `'o'` on top of the kind stack is fatal). -/
def GeneralScene.TransformEnd (loc : FileLoc) (s : GeneralScene) : StepResult :=
  verifyWorld s fun s =>
    if s.pushedTransforms = [] then .ok (recErr s)
    else
      match s.pushedTransforms.getLast?, s.pushedActiveTransformBits.getLast?,
            s.pushStack.getLast? with
      | some ts, some bits, some kl =>
        let s := { s with
          curTransform := ts,
          pushedTransforms := s.pushedTransforms.dropLast,
          activeTransformBits := bits,
          pushedActiveTransformBits := s.pushedActiveTransformBits.dropLast }
        if kl.1 = PushKind.a ∨ kl.1 = PushKind.o then .error ()
        else .ok { s with pushStack := s.pushStack.dropLast }
      | _, _, _ => .error ()

/-- `GeneralScene::Texture`: an unknown texture type and a redefined
texture name are fatal; the dual-time transform is interned (before the
type check, as in the source). -/
def GeneralScene.Texture (name type texname : String) (params : ParsedParameterVector)
    (loc : FileLoc) (s : GeneralScene) : StepResult :=
  verifyWorld s fun s =>
    let dict := mkDict params s.graphicsState.textureAttributes s.graphicsState.colorSpace
    let l0 := cLookup s.cache (s.GetCTM 0)
    let l1 := cLookup l0.2 (s.GetCTM 1)
    let wft : AnimatedTransform := ⟨l0.1, s.transformStartTime, l1.1, s.transformEndTime⟩
    if type ≠ "float" ∧ type ≠ "spectrum" then .error ()
    else
      let texs := if type = "float" then s.floatTextures else s.spectrumTextures
      if texs.any fun tex => tex.1 = name then .error ()
      else if type = "float" then
        .ok { s with cache := l1.2,
                     floatTextures := s.floatTextures ++ [(name, ⟨texname, dict, loc, wft⟩)] }
      else
        .ok { s with cache := l1.2,
                     spectrumTextures := s.spectrumTextures ++ [(name, ⟨texname, dict, loc, wft⟩)] }

/-- `GeneralScene::Material`: appends to the ordered material list, points
the current material index at the new last slot and clears the
named-material reference. -/
def GeneralScene.Material (name : String) (params : ParsedParameterVector)
    (loc : FileLoc) (s : GeneralScene) : StepResult :=
  verifyWorld s fun s =>
    let dict := mkDict params s.graphicsState.materialAttributes s.graphicsState.colorSpace
    let mats := s.materials ++ [⟨name, dict, loc⟩]
    .ok { s with
      materials := mats,
      graphicsState := { s.graphicsState with
        currentMaterialIndex := (mats.length : Int) - 1,
        currentMaterialName := "" } }

/-- `GeneralScene::MakeNamedMaterial`: redefinition is fatal; the stored
entity's type name is deferred to the parameters (empty name string). -/
def GeneralScene.MakeNamedMaterial (name : String) (params : ParsedParameterVector)
    (loc : FileLoc) (s : GeneralScene) : StepResult :=
  verifyWorld s fun s =>
    let dict := mkDict params s.graphicsState.materialAttributes s.graphicsState.colorSpace
    if (s.namedMaterials name).isSome then .error ()
    else .ok { s with namedMaterials := updateMap s.namedMaterials name ⟨"", dict, loc⟩ }

/-- `GeneralScene::NamedMaterial`: records the name reference and sets the
sentinel index −1. -/
def GeneralScene.NamedMaterial (name : String) (loc : FileLoc) (s : GeneralScene) : StepResult :=
  verifyWorld s fun s =>
    .ok { s with graphicsState := { s.graphicsState with
      currentMaterialName := name, currentMaterialIndex := -1 } }

/-- `GeneralScene::LightSource`. -/
def GeneralScene.LightSource (name : String) (params : ParsedParameterVector)
    (loc : FileLoc) (s : GeneralScene) : StepResult :=
  verifyWorld s fun s =>
    let dict := mkDict params s.graphicsState.lightAttributes s.graphicsState.colorSpace
    let l0 := cLookup s.cache (s.GetCTM 0)
    let l1 := cLookup l0.2 (s.GetCTM 1)
    .ok { s with
      cache := l1.2,
      lights := s.lights ++ [⟨name, dict, loc,
        ⟨l0.1, s.transformStartTime, l1.1, s.transformEndTime⟩,
        s.graphicsState.currentOutsideMedium⟩] }

/-- `GeneralScene::AreaLightSource`: records the pending area light
{name, params, location} on the graphics state. -/
def GeneralScene.AreaLightSource (name : String) (params : ParsedParameterVector)
    (loc : FileLoc) (s : GeneralScene) : StepResult :=
  verifyWorld s fun s =>
    .ok { s with graphicsState := { s.graphicsState with
      areaLightName := name,
      areaLightParams := mkDict params s.graphicsState.lightAttributes s.graphicsState.colorSpace,
      areaLightLoc := loc } }

/-- `GeneralScene::Shape`: appends a fresh area-light entity whenever a
pending area-light name is set (linking the shape by index), chooses static
or animated storage by whether the current transform differs between the
two time indices, and redirects into the open instance definition when one
is active. -/
def GeneralScene.Shape (name : String) (params : ParsedParameterVector)
    (loc : FileLoc) (s : GeneralScene) : StepResult :=
  verifyWorld s fun s =>
    let dict := mkDict params s.graphicsState.shapeAttributes s.graphicsState.colorSpace
    let areaLightIndex : Int :=
      if s.graphicsState.areaLightName ≠ "" then (s.areaLights.length : Int) else -1
    let s :=
      if s.graphicsState.areaLightName ≠ "" then
        { s with areaLights := s.areaLights ++
            [⟨s.graphicsState.areaLightName, s.graphicsState.areaLightParams,
              s.graphicsState.areaLightLoc⟩] }
      else s
    if s.curTransform 0 ≠ s.curTransform 1 then
      match s.currentInstance with
      | some inst =>
        let s := if s.graphicsState.areaLightName ≠ "" then warn1 s else s
        let l0 := cLookup s.cache (s.GetCTM 0)
        let l1 := cLookup l0.2 (s.GetCTM 1)
        let l2 := cLookup l1.2 Transform.id
        let ent : AnimatedShapeSceneEntity :=
          ⟨name, dict, loc, ⟨l0.1, s.transformStartTime, l1.1, s.transformEndTime⟩, l2.1,
           s.graphicsState.reverseOrientation, s.graphicsState.currentMaterialIndex,
           s.graphicsState.currentMaterialName, areaLightIndex,
           s.graphicsState.currentInsideMedium, s.graphicsState.currentOutsideMedium⟩
        let pr := (s.instanceDefinitions inst).getD ([], [])
        .ok { s with
              cache := l2.2,
              instanceDefinitions :=
                updateMap s.instanceDefinitions inst (pr.1, pr.2 ++ [ent]) }
      | none =>
        let l0 := cLookup s.cache (s.GetCTM 0)
        let l1 := cLookup l0.2 (s.GetCTM 1)
        let l2 := cLookup l1.2 Transform.id
        let ent : AnimatedShapeSceneEntity :=
          ⟨name, dict, loc, ⟨l0.1, s.transformStartTime, l1.1, s.transformEndTime⟩, l2.1,
           s.graphicsState.reverseOrientation, s.graphicsState.currentMaterialIndex,
           s.graphicsState.currentMaterialName, areaLightIndex,
           s.graphicsState.currentInsideMedium, s.graphicsState.currentOutsideMedium⟩
        .ok { s with cache := l2.2, animatedShapes := s.animatedShapes ++ [ent] }
    else
      match s.currentInstance with
      | some inst =>
        let s := if s.graphicsState.areaLightName ≠ "" then warn1 s else s
        let l0 := cLookup s.cache (s.GetCTM 0)
        let l1 := cLookup l0.2 (Transform.inverse (l0.2.getD l0.1 Transform.id))
        let ent : ShapeSceneEntity :=
          ⟨name, dict, loc, l0.1, l1.1, s.graphicsState.reverseOrientation,
           s.graphicsState.currentMaterialIndex, s.graphicsState.currentMaterialName,
           areaLightIndex, s.graphicsState.currentInsideMedium,
           s.graphicsState.currentOutsideMedium⟩
        let pr := (s.instanceDefinitions inst).getD ([], [])
        .ok { s with
              cache := l1.2,
              instanceDefinitions :=
                updateMap s.instanceDefinitions inst (pr.1 ++ [ent], pr.2) }
      | none =>
        let l0 := cLookup s.cache (s.GetCTM 0)
        let l1 := cLookup l0.2 (Transform.inverse (l0.2.getD l0.1 Transform.id))
        let ent : ShapeSceneEntity :=
          ⟨name, dict, loc, l0.1, l1.1, s.graphicsState.reverseOrientation,
           s.graphicsState.currentMaterialIndex, s.graphicsState.currentMaterialName,
           areaLightIndex, s.graphicsState.currentInsideMedium,
           s.graphicsState.currentOutsideMedium⟩
        .ok { s with cache := l1.2, shapes := s.shapes ++ [ent] }

/-- `GeneralScene::ReverseOrientation`. -/
def GeneralScene.ReverseOrientation (loc : FileLoc) (s : GeneralScene) : StepResult :=
  verifyWorld s fun s =>
    .ok { s with graphicsState := { s.graphicsState with
      reverseOrientation := !s.graphicsState.reverseOrientation } }

/-- `GeneralScene::ObjectBegin`: pushes like `AttributeBegin` (with an
`'o'` marker), then rejects nested definitions and name redefinition
fatally, then opens the definition.  The source builds a "string name"
parameter but never appends it to the vector it forwards, so `Attribute`
receives an empty list. -/
def GeneralScene.ObjectBegin (name : String) (loc : FileLoc) (s : GeneralScene) : StepResult :=
  verifyWorld s fun s =>
    let s := { s with
      pushedGraphicsStates := s.pushedGraphicsStates ++ [s.graphicsState],
      pushedTransforms := s.pushedTransforms ++ [s.curTransform],
      pushedActiveTransformBits := s.pushedActiveTransformBits ++ [s.activeTransformBits],
      pushStack := s.pushStack ++ [(PushKind.o, loc)] }
    match GeneralScene.Attribute "shape" [] loc s with
    | .error e => .error e
    | .ok s =>
      if s.currentInstance.isSome then .error ()
      else if (s.instanceDefinitions name).isSome then .error ()
      else .ok { s with
        instanceDefinitions := updateMap s.instanceDefinitions name ([], []),
        currentInstance := some name }

/-- `GeneralScene::ObjectEnd`: fatal without an open definition; otherwise
closes it and pops like `AttributeEnd` (kind `'t'` or `'a'` on top is
fatal).  The final arm is the same unreachable out-of-sync case as in
`AttributeEnd`. -/
def GeneralScene.ObjectEnd (loc : FileLoc) (s : GeneralScene) : StepResult :=
  verifyWorld s fun s =>
    if s.currentInstance = none then .error ()
    else
      let s := { s with currentInstance := none }
      match s.pushedGraphicsStates.getLast?, s.pushedTransforms.getLast?,
            s.pushedActiveTransformBits.getLast?, s.pushStack.getLast? with
      | some g, some ts, some bits, some kl =>
        let s := { s with
          graphicsState := g,
          pushedGraphicsStates := s.pushedGraphicsStates.dropLast,
          curTransform := ts,
          pushedTransforms := s.pushedTransforms.dropLast,
          activeTransformBits := bits,
          pushedActiveTransformBits := s.pushedActiveTransformBits.dropLast }
        if kl.1 = PushKind.t ∨ kl.1 = PushKind.a then .error ()
        else .ok { s with pushStack := s.pushStack.dropLast }
      | _, _, _, _ => .error ()

/-- `GeneralScene::ObjectInstance`: fatal inside an open definition;
composes the frozen current transform with the inverse of the camera
translation and appends an instance entity (animated or static, mirroring
the current transform's animation state). -/
def GeneralScene.ObjectInstance (name : String) (loc : FileLoc) (s : GeneralScene) : StepResult :=
  verifyWorld s fun s =>
    if s.currentInstance.isSome then .error ()
    else
      let worldFromCameraT := TransformSet.inverseS s.cameraFromWorldT
      if s.curTransform 0 ≠ s.curTransform 1 then
        let l0 := cLookup s.cache (s.GetCTM 0 * worldFromCameraT 0)
        let l1 := cLookup l0.2 (s.GetCTM 1 * worldFromCameraT 1)
        .ok { s with
              cache := l1.2,
              instances := s.instances ++ [⟨name, loc,
                some ⟨l0.1, s.transformStartTime, l1.1, s.transformEndTime⟩, none⟩] }
      else
        let l0 := cLookup s.cache (s.GetCTM 0 * worldFromCameraT 0)
        .ok { s with
              cache := l0.2,
              instances := s.instances ++ [⟨name, loc, none, some l0.1⟩] }

/-- `GeneralScene::WorldEnd`: warns for and drains every missing
`AttributeEnd` (popping the graphics-state and transform stacks together),
then warns for and drains every remaining missing `TransformEnd` — note
that the active-bits stack and the kind stack are left untouched.  The
hand-off to the render driver is outside the interpreter state. -/
def GeneralScene.WorldEnd (loc : FileLoc) (s : GeneralScene) : StepResult :=
  verifyWorld s fun s =>
    let n := s.pushedGraphicsStates.length
    let s := { s with
      warnings := s.warnings + n,
      pushedGraphicsStates := [],
      pushedTransforms := s.pushedTransforms.take (s.pushedTransforms.length - n) }
    .ok { s with
      warnings := s.warnings + s.pushedTransforms.length,
      pushedTransforms := [] }

/-- One typed directive call, as delivered by the (out-of-scope) parser.
Operator-valued payloads stand for the transforms the non-reviewed
`transform.h` constructors produce from the raw numeric arguments. -/
inductive Directive
  | identityD (loc : FileLoc)
  | translate (op : Transform) (loc : FileLoc)
  | transformD (tr : Transform) (loc : FileLoc)
  | concatTransform (tr : Transform) (loc : FileLoc)
  | rotate (op : Transform) (loc : FileLoc)
  | scale (op : Transform) (loc : FileLoc)
  | lookAt (op : Transform) (loc : FileLoc)
  | coordinateSystem (name : String) (loc : FileLoc)
  | coordSysTransform (name : String) (loc : FileLoc)
  | activeTransformAll (loc : FileLoc)
  | activeTransformEndTime (loc : FileLoc)
  | activeTransformStartTime (loc : FileLoc)
  | transformTimes (start finish : ℚ) (loc : FileLoc)
  | colorSpaceD (n : String) (loc : FileLoc)
  | pixelFilter (name : String) (params : ParsedParameterVector) (loc : FileLoc)
  | film (type : String) (params : ParsedParameterVector) (loc : FileLoc)
  | sampler (name : String) (params : ParsedParameterVector) (loc : FileLoc)
  | accelerator (name : String) (params : ParsedParameterVector) (loc : FileLoc)
  | integrator (name : String) (params : ParsedParameterVector) (loc : FileLoc)
  | camera (name : String) (params : ParsedParameterVector) (loc : FileLoc)
  | makeNamedMedium (name : String) (params : ParsedParameterVector) (loc : FileLoc)
  | mediumInterface (insideName outsideName : String) (loc : FileLoc)
  | worldBegin (loc : FileLoc)
  | attributeBegin (loc : FileLoc)
  | attributeEnd (loc : FileLoc)
  | attribute (target : String) (attrib : ParsedParameterVector) (loc : FileLoc)
  | transformBegin (loc : FileLoc)
  | transformEnd (loc : FileLoc)
  | texture (name type texname : String) (params : ParsedParameterVector) (loc : FileLoc)
  | material (name : String) (params : ParsedParameterVector) (loc : FileLoc)
  | makeNamedMaterial (name : String) (params : ParsedParameterVector) (loc : FileLoc)
  | namedMaterial (name : String) (loc : FileLoc)
  | lightSource (name : String) (params : ParsedParameterVector) (loc : FileLoc)
  | areaLightSource (name : String) (params : ParsedParameterVector) (loc : FileLoc)
  | shape (name : String) (params : ParsedParameterVector) (loc : FileLoc)
  | reverseOrientation (loc : FileLoc)
  | objectBegin (name : String) (loc : FileLoc)
  | objectEnd (loc : FileLoc)
  | objectInstance (name : String) (loc : FileLoc)
  | worldEnd (loc : FileLoc)
deriving DecidableEq

/-- Dispatch one directive to its handler. -/
def stepD (d : Directive) (s : GeneralScene) : StepResult :=
  match d with
  | .identityD loc => GeneralScene.Identity loc s
  | .translate op loc => GeneralScene.Translate op loc s
  | .transformD tr loc => GeneralScene.TransformDirective tr loc s
  | .concatTransform tr loc => GeneralScene.ConcatTransform tr loc s
  | .rotate op loc => GeneralScene.Rotate op loc s
  | .scale op loc => GeneralScene.Scale op loc s
  | .lookAt op loc => GeneralScene.LookAt op loc s
  | .coordinateSystem name loc => GeneralScene.CoordinateSystem name loc s
  | .coordSysTransform name loc => GeneralScene.CoordSysTransform name loc s
  | .activeTransformAll loc => GeneralScene.ActiveTransformAll loc s
  | .activeTransformEndTime loc => GeneralScene.ActiveTransformEndTime loc s
  | .activeTransformStartTime loc => GeneralScene.ActiveTransformStartTime loc s
  | .transformTimes a b loc => GeneralScene.TransformTimes a b loc s
  | .colorSpaceD n loc => GeneralScene.ColorSpace n loc s
  | .pixelFilter name params loc => GeneralScene.PixelFilter name params loc s
  | .film type params loc => GeneralScene.Film type params loc s
  | .sampler name params loc => GeneralScene.Sampler name params loc s
  | .accelerator name params loc => GeneralScene.Accelerator name params loc s
  | .integrator name params loc => GeneralScene.Integrator name params loc s
  | .camera name params loc => GeneralScene.Camera name params loc s
  | .makeNamedMedium name params loc => GeneralScene.MakeNamedMedium name params loc s
  | .mediumInterface a b loc => GeneralScene.MediumInterface a b loc s
  | .worldBegin loc => GeneralScene.WorldBegin loc s
  | .attributeBegin loc => GeneralScene.AttributeBegin loc s
  | .attributeEnd loc => GeneralScene.AttributeEnd loc s
  | .attribute target attrib loc => GeneralScene.Attribute target attrib loc s
  | .transformBegin loc => GeneralScene.TransformBegin loc s
  | .transformEnd loc => GeneralScene.TransformEnd loc s
  | .texture n t x params loc => GeneralScene.Texture n t x params loc s
  | .material name params loc => GeneralScene.Material name params loc s
  | .makeNamedMaterial name params loc => GeneralScene.MakeNamedMaterial name params loc s
  | .namedMaterial name loc => GeneralScene.NamedMaterial name loc s
  | .lightSource name params loc => GeneralScene.LightSource name params loc s
  | .areaLightSource name params loc => GeneralScene.AreaLightSource name params loc s
  | .shape name params loc => GeneralScene.Shape name params loc s
  | .reverseOrientation loc => GeneralScene.ReverseOrientation loc s
  | .objectBegin name loc => GeneralScene.ObjectBegin name loc s
  | .objectEnd loc => GeneralScene.ObjectEnd loc s
  | .objectInstance name loc => GeneralScene.ObjectInstance name loc s
  | .worldEnd loc => GeneralScene.WorldEnd loc s

/-- Run a directive stream in call order; a fatal error aborts the rest. -/
def execList (ds : List Directive) (s : GeneralScene) : StepResult :=
  match ds with
  | [] => .ok s
  | d :: rest =>
    match stepD d s with
    | .ok s' => execList rest s'
    | .error e => .error e

/-- Did the directive stream run to completion (no fatal error)? -/
def resultOk : StepResult → Bool
  | .ok _ => true
  | .error _ => false

/-- The final state of a non-fatal run. -/
def resultState : StepResult → Option GeneralScene
  | .ok s => some s
  | .error _ => none

/-- Observe the three scope-stack lengths of a run's final state. -/
def stackLengthsAfter (ds : List Directive) (s : GeneralScene) : Option (ℕ × ℕ × ℕ) :=
  (resultState (execList ds s)).map fun s =>
    (s.pushedGraphicsStates.length, s.pushedTransforms.length,
     s.pushedActiveTransformBits.length)

/-- Observe the recoverable-error count of a run's final state. -/
def recoverableErrorsAfter (ds : List Directive) (s : GeneralScene) : Option ℕ :=
  (resultState (execList ds s)).map fun s => s.recoverableErrors

/-- Observe the final graphics state of a non-fatal run. -/
def graphicsStateAfter (ds : List Directive) (s : GeneralScene) : Option GraphicsState :=
  (resultState (execList ds s)).map fun s => s.graphicsState

/-- Observe a named-coordinate-system registry entry of a run's final
state. -/
def namedCSAfter (ds : List Directive) (s : GeneralScene) (name : String) :
    Option (Option TransformSet) :=
  (resultState (execList ds s)).map fun s => s.namedCoordinateSystems name

/-- The six scope Begin/End directives. -/
def Directive.isScope : Directive → Bool
  | .attributeBegin _ | .attributeEnd _ | .transformBegin _ | .transformEnd _
  | .objectBegin _ _ | .objectEnd _ => true
  | _ => false

/-- `true` unless the directive is a `NamedMaterial` with an empty name. -/
def Directive.namedMaterialNonempty : Directive → Bool
  | .namedMaterial name _ => name != ""
  | _ => true

/-- `true` unless the directive sets the current material reference
(`Material` or `NamedMaterial`). -/
def Directive.leavesMaterialRef : Directive → Bool
  | .material _ _ _ | .namedMaterial _ _ => false
  | _ => true

/-- The correlation the scope machinery maintains between the three
parallel stacks and the nesting-kind stack: the transform and active-bits
stacks track every open scope, the graphics-state stack only the
attribute/object scopes. -/
def StackInv (s : GeneralScene) : Prop :=
  s.pushedTransforms.length = s.pushStack.length ∧
  s.pushedActiveTransformBits.length = s.pushStack.length ∧
  s.pushedGraphicsStates.length =
    (s.pushStack.filter fun kl => kl.1 != PushKind.t).length

instance (s : GeneralScene) : Decidable (StackInv s) := by
  unfold StackInv; infer_instance

/-- Every intermediate state of the run keeps at least `n` entries on the
pushed-graphics-states stack (and the run so far is non-fatal); a fatal
suffix is vacuously safe. -/
def gsSafeRun (n : ℕ) : GeneralScene → List Directive → Bool
  | _, [] => true
  | s, d :: rest =>
    match stepD d s with
    | .ok s' => decide (n ≤ s'.pushedGraphicsStates.length) && gsSafeRun n s' rest
    | .error _ => true

/-- "Exactly one of {index ≥ 0, name non-empty} is authoritative": either
the ordered-list index is in use (non-negative, name cleared) or the
named-material reference is (sentinel −1, non-empty name). -/
def MaterialRefAuthoritative (g : GraphicsState) : Prop :=
  (0 ≤ g.currentMaterialIndex ∧ g.currentMaterialName = "") ∨
  (g.currentMaterialIndex = -1 ∧ g.currentMaterialName ≠ "")

instance (g : GraphicsState) : Decidable (MaterialRefAuthoritative g) := by
  unfold MaterialRefAuthoritative; infer_instance

/-- The material-reference discipline, for the live graphics state and
every stacked copy. -/
def MaterialInvariant (s : GeneralScene) : Prop :=
  MaterialRefAuthoritative s.graphicsState ∧
  ∀ g ∈ s.pushedGraphicsStates, MaterialRefAuthoritative g

/-- Before any material-setting directive: the live and stacked graphics
states still reference the default material at index 0, and every
accumulated shape (top-level, animated, or captured in an instance
definition) references material index 0. -/
def DefaultMaterialOnly (s : GeneralScene) : Prop :=
  s.graphicsState.currentMaterialIndex = 0 ∧
  s.graphicsState.currentMaterialName = "" ∧
  (∀ g ∈ s.pushedGraphicsStates,
    g.currentMaterialIndex = 0 ∧ g.currentMaterialName = "") ∧
  (∀ e ∈ s.shapes, e.materialIndex = 0) ∧
  (∀ e ∈ s.animatedShapes, e.materialIndex = 0) ∧
  (∀ name pr, s.instanceDefinitions name = some pr →
    (∀ e ∈ pr.1, e.materialIndex = 0) ∧ (∀ e ∈ pr.2, e.materialIndex = 0))

/-- Observe one slot of the current transform after a single directive. -/
def curSlotAfter (d : Directive) (s : GeneralScene) (i : Fin 2) : Option Transform :=
  (resultState (stepD d s)).map fun s' => s'.curTransform i

/-- The per-slot semantics of the seven transform-composition directives:
on every time index selected by the active-transform bitmask the five
operator directives post-multiply, `Identity` installs the identity and the
direct `Transform` directive installs the transpose of the supplied
row-major matrix; unselected indices are unchanged. -/
def CompositionSemantics (s : GeneralScene) (op tr : Transform) (loc : FileLoc)
    (i : Fin 2) : Prop :=
  (s.activeTransformBits.testBit (i : ℕ) = true →
    curSlotAfter (.translate op loc) s i = some (s.curTransform i * op) ∧
    curSlotAfter (.rotate op loc) s i = some (s.curTransform i * op) ∧
    curSlotAfter (.scale op loc) s i = some (s.curTransform i * op) ∧
    curSlotAfter (.lookAt op loc) s i = some (s.curTransform i * op) ∧
    curSlotAfter (.concatTransform tr loc) s i =
      some (s.curTransform i * tr.transposeT) ∧
    curSlotAfter (.identityD loc) s i = some Transform.id ∧
    curSlotAfter (.transformD tr loc) s i = some tr.transposeT) ∧
  (s.activeTransformBits.testBit (i : ℕ) = false →
    curSlotAfter (.translate op loc) s i = some (s.curTransform i) ∧
    curSlotAfter (.rotate op loc) s i = some (s.curTransform i) ∧
    curSlotAfter (.scale op loc) s i = some (s.curTransform i) ∧
    curSlotAfter (.lookAt op loc) s i = some (s.curTransform i) ∧
    curSlotAfter (.concatTransform tr loc) s i = some (s.curTransform i) ∧
    curSlotAfter (.identityD loc) s i = some (s.curTransform i) ∧
    curSlotAfter (.transformD tr loc) s i = some (s.curTransform i)) ∧
  (tr.transposeT.m = tr.m.transpose)

/-- The recoverable rejection of every world-only directive while the gate
is still in the options block: each call is counted as one recoverable
error and the state is otherwise untouched. -/
def OptionsBlockRejections (s : GeneralScene) (loc : FileLoc)
    (name type texname target : String) (params : ParsedParameterVector) : Prop :=
  stepD (.attributeBegin loc) s = .ok (recErr s) ∧
  stepD (.attributeEnd loc) s = .ok (recErr s) ∧
  stepD (.transformBegin loc) s = .ok (recErr s) ∧
  stepD (.transformEnd loc) s = .ok (recErr s) ∧
  stepD (.texture name type texname params loc) s = .ok (recErr s) ∧
  stepD (.material name params loc) s = .ok (recErr s) ∧
  stepD (.makeNamedMaterial name params loc) s = .ok (recErr s) ∧
  stepD (.namedMaterial name loc) s = .ok (recErr s) ∧
  stepD (.lightSource name params loc) s = .ok (recErr s) ∧
  stepD (.areaLightSource name params loc) s = .ok (recErr s) ∧
  stepD (.shape name params loc) s = .ok (recErr s) ∧
  stepD (.reverseOrientation loc) s = .ok (recErr s) ∧
  stepD (.objectBegin name loc) s = .ok (recErr s) ∧
  stepD (.objectEnd loc) s = .ok (recErr s) ∧
  stepD (.objectInstance name loc) s = .ok (recErr s) ∧
  stepD (.worldEnd loc) s = .ok (recErr s) ∧
  stepD (.activeTransformAll loc) s = .ok { s with activeTransformBits := AllTransformsBits } ∧
  stepD (.activeTransformStartTime loc) s = .ok { s with activeTransformBits := StartTransformBits } ∧
  stepD (.activeTransformEndTime loc) s = .ok { s with activeTransformBits := EndTransformBits }

/-- The two material directives and the material-reference discipline:
`Material` appends to the ordered list and makes the index authoritative
(new last position, name cleared); `NamedMaterial` makes the name
authoritative (sentinel −1); and every directive whose `NamedMaterial`
argument is non-empty preserves the discipline on the live and stacked
graphics states. -/
def MaterialDiscipline (t : GeneralScene) (name : String)
    (params : ParsedParameterVector) (loc : FileLoc) : Prop :=
  (∃ t', stepD (.material name params loc) t = .ok t' ∧
    t'.materials.length = t.materials.length + 1 ∧
    t'.graphicsState.currentMaterialIndex = (t.materials.length : Int) ∧
    0 ≤ t'.graphicsState.currentMaterialIndex ∧
    t'.graphicsState.currentMaterialName = "" ∧
    MaterialRefAuthoritative t'.graphicsState) ∧
  (∃ t', stepD (.namedMaterial name loc) t = .ok t' ∧
    t'.graphicsState.currentMaterialIndex = -1 ∧
    t'.graphicsState.currentMaterialName = name ∧
    MaterialRefAuthoritative t'.graphicsState) ∧
  (∀ d u u', Directive.namedMaterialNonempty d = true →
    MaterialInvariant u → stepD d u = .ok u' → MaterialInvariant u')

/-- The state a directive stream ends in, with the fresh container as
fallback for a fatal run (used to name concrete states). -/
def runOr (ds : List Directive) : GeneralScene :=
  match execList ds GeneralScene.initScene with
  | .ok s => s
  | .error _ => GeneralScene.initScene

/-- A sample non-identity transform (uniform scale by 2, with inverse). -/
def twoT : Transform :=
  ⟨Matrix.diagonal fun _ => 2, Matrix.diagonal fun _ => (1 : ℚ) / 2⟩

/-- How the four named registries treat an already-registered name: the
named materials, named media and instance definitions reject the
redefinition fatally, while `CoordinateSystem` silently overwrites the
stored transform set without raising any error. -/
def RegistryInsertionChecks (s : GeneralScene) (loc : FileLoc) (name : String)
    (params : ParsedParameterVector) : Prop :=
  ((s.namedMaterials name).isSome = true →
    stepD (.makeNamedMaterial name params loc) s = .error ()) ∧
  ((s.media name).isSome = true →
    stepD (.makeNamedMedium name params loc) s = .error ()) ∧
  ((s.instanceDefinitions name).isSome = true →
    stepD (.objectBegin name loc) s = .error ()) ∧
  (∃ s', stepD (.coordinateSystem name loc) s = .ok s' ∧
    s'.namedCoordinateSystems name = some s.curTransform ∧
    s'.recoverableErrors = s.recoverableErrors)

/-- The sticky pending-area-light behaviour of `Shape`: with a pending
area-light name set, the call appends a fresh area-light entity carrying
the pending values, leaves the whole graphics state (and so the pending
values) untouched, and — in the static, non-instanced case — links the new
shape to the new entity by its index. -/
def AreaLightSticky (s : GeneralScene) (name : String)
    (params : ParsedParameterVector) (loc : FileLoc) : Prop :=
  (∃ s', stepD (.shape name params loc) s = .ok s' ∧
    s'.areaLights = s.areaLights ++
      [⟨s.graphicsState.areaLightName, s.graphicsState.areaLightParams,
        s.graphicsState.areaLightLoc⟩] ∧
    s'.graphicsState = s.graphicsState) ∧
  (s.curTransform 0 = s.curTransform 1 → s.currentInstance = none →
    ∃ s', stepD (.shape name params loc) s = .ok s' ∧
      s'.shapes.getLast?.map (fun e => (e.name, e.lightIndex)) =
        some (name, (s.areaLights.length : Int)) ∧
      s'.shapes.length = s.shapes.length + 1)

/-! ## Theorems -/

theorem bucketEq_eq_decide (hash : Transform → ℕ) (nb : ℕ) (t u : Transform) :
    TransformCache.bucketEq hash nb u t = decide (u = t) := by
  by_cases h : u = t
  · subst h; simp [TransformCache.bucketEq]
  · simp [TransformCache.bucketEq, h]

theorem findIndex_congrP (p q : Transform → Bool) (h : ∀ u, p u = q u) :
    ∀ c : TransformCache.Store,
      TransformCache.findIndex p c = TransformCache.findIndex q c := by
  intro c
  induction c with
  | nil => rfl
  | cons u rest ih => simp [TransformCache.findIndex, h u, ih]

theorem findIndex_none_forall {p : Transform → Bool} :
    ∀ {c : TransformCache.Store}, TransformCache.findIndex p c = none →
      ∀ u ∈ c, p u = false := by
  intro c
  induction c with
  | nil => intro _ u hu; cases hu
  | cons v rest ih =>
    intro h u hu
    unfold TransformCache.findIndex at h
    by_cases hv : p v
    · simp [hv] at h
    · have h' : TransformCache.findIndex p rest = none := by
        cases hfr : TransformCache.findIndex p rest with
        | none => rfl
        | some j => simp [hv, hfr] at h
      rcases List.mem_cons.mp hu with rfl | hmem
      · exact Bool.eq_false_iff.mpr hv
      · exact ih h' u hmem

theorem findIndex_append_last (p : Transform → Bool) (x : Transform)
    (hx : p x = true) :
    ∀ {c : TransformCache.Store}, TransformCache.findIndex p c = none →
      TransformCache.findIndex p (c ++ [x]) = some c.length := by
  intro c
  induction c with
  | nil => intro _; simp [TransformCache.findIndex, hx]
  | cons v rest ih =>
    intro h
    have hv : p v = false := findIndex_none_forall h v (by simp)
    have h' : TransformCache.findIndex p rest = none := by
      unfold TransformCache.findIndex at h
      cases hfr : TransformCache.findIndex p rest with
      | none => rfl
      | some j => simp [hv, hfr] at h
    unfold TransformCache.findIndex
    simp [hv, ih h']

theorem lookup_params_irrelevant (h1 h2 : Transform → ℕ) (n1 n2 : ℕ)
    (c : TransformCache.Store) (t : Transform) :
    TransformCache.Lookup h1 n1 c t = TransformCache.Lookup h2 n2 c t := by
  unfold TransformCache.Lookup
  rw [findIndex_congrP (fun u => TransformCache.bucketEq h1 n1 u t)
    (fun u => TransformCache.bucketEq h2 n2 u t)
    (fun u => by simp only [bucketEq_eq_decide]) c]

theorem lookup_hit (hash : Transform → ℕ) (nb : ℕ)
    {c : TransformCache.Store} {t : Transform} {i : ℕ}
    (hf : TransformCache.findIndex
      (fun u => TransformCache.bucketEq hash nb u t) c = some i) :
    TransformCache.Lookup hash nb c t = (i, c) := by
  have hne : c.isEmpty = false := by
    cases c with
    | nil => simp [TransformCache.findIndex] at hf
    | cons a l => rfl
  unfold TransformCache.Lookup
  simp [hne, hf]

theorem lookup_miss (hash : Transform → ℕ) (nb : ℕ)
    {c : TransformCache.Store} {t : Transform}
    (hf : TransformCache.findIndex
      (fun u => TransformCache.bucketEq hash nb u t) c = none) :
    TransformCache.Lookup hash nb c t = (c.length, c ++ [t]) := by
  unfold TransformCache.Lookup
  cases he : c.isEmpty with
  | true =>
    have : c = [] := by
      cases c with
      | nil => rfl
      | cons a l => simp [List.isEmpty] at he
    subst this
    simp
  | false => simp [he, hf]

theorem lookup_mem_no_alloc (hash : Transform → ℕ) (nb : ℕ)
    {c : TransformCache.Store} {t : Transform} (hm : t ∈ c) :
    (TransformCache.Lookup hash nb c t).2 = c := by
  cases hf : TransformCache.findIndex
      (fun u => TransformCache.bucketEq hash nb u t) c with
  | some i => rw [lookup_hit hash nb hf]
  | none =>
    exfalso
    have := findIndex_none_forall hf t hm
    rw [bucketEq_eq_decide] at this
    simp at this

theorem lookup_no_new_duplicate (hash : Transform → ℕ) (nb : ℕ)
    {c : TransformCache.Store} (t : Transform) (h : c.Nodup) :
    (TransformCache.Lookup hash nb c t).2.Nodup := by
  cases hf : TransformCache.findIndex
      (fun u => TransformCache.bucketEq hash nb u t) c with
  | some i => rw [lookup_hit hash nb hf]; exact h
  | none =>
    rw [lookup_miss hash nb hf]
    have hnotmem : t ∉ c := by
      intro hm
      have := findIndex_none_forall hf t hm
      rw [bucketEq_eq_decide] at this
      simp at this
    simp [List.nodup_append, h, hnotmem]

theorem lookup_second_stable (hash : Transform → ℕ) (nb : ℕ)
    (c : TransformCache.Store) (t : Transform) :
    TransformCache.Lookup hash nb (TransformCache.Lookup hash nb c t).2 t =
      ((TransformCache.Lookup hash nb c t).1,
       (TransformCache.Lookup hash nb c t).2) := by
  have hpt : TransformCache.bucketEq hash nb t t = true := by
    rw [bucketEq_eq_decide]; simp
  cases hf : TransformCache.findIndex
      (fun u => TransformCache.bucketEq hash nb u t) c with
  | some i => rw [lookup_hit hash nb hf, lookup_hit hash nb hf]
  | none =>
    rw [lookup_miss hash nb hf, lookup_hit hash nb
      (findIndex_append_last (fun u => TransformCache.bucketEq hash nb u t) t hpt hf)]

/-- C4: for transform values equal by value, `TransformCache::Lookup`
returns the identical stored handle; a lookup of an already-stored value
never allocates (the store is unchanged); after any lookup, looking the
same value up again returns that same handle without allocating; and the
store keeps at most one instance per distinct transform value. -/
theorem transform_cache_interning (hash : Transform → ℕ) (nb : ℕ)
    (c : TransformCache.Store) (t t1 t2 : Transform)
    (heq : t1 = t2) (hmem : t ∈ c) (hnd : c.Nodup) :
    (TransformCache.Lookup hash nb c t1).1 = (TransformCache.Lookup hash nb c t2).1 ∧
    (TransformCache.Lookup hash nb c t).2 = c ∧
    TransformCache.Lookup hash nb (TransformCache.Lookup hash nb c t1).2 t2 =
      ((TransformCache.Lookup hash nb c t1).1,
       (TransformCache.Lookup hash nb c t1).2) ∧
    (TransformCache.Lookup hash nb c t1).2.Nodup := by
  subst heq
  exact ⟨rfl, lookup_mem_no_alloc hash nb hmem,
         lookup_second_stable hash nb c t1,
         lookup_no_new_duplicate hash nb t1 hnd⟩

/-- Concrete instantiation of `transform_cache_interning`. -/
theorem transform_cache_interning_witness :
    Transform.id = Transform.id ∧ Transform.id ∈ [Transform.id] ∧
    List.Nodup [Transform.id] ∧
    ((TransformCache.Lookup (fun _ => 0) 1 [Transform.id] Transform.id).1 =
        (TransformCache.Lookup (fun _ => 0) 1 [Transform.id] Transform.id).1 ∧
      (TransformCache.Lookup (fun _ => 0) 1 [Transform.id] Transform.id).2 =
        [Transform.id] ∧
      TransformCache.Lookup (fun _ => 0) 1
          (TransformCache.Lookup (fun _ => 0) 1 [Transform.id] Transform.id).2
          Transform.id =
        ((TransformCache.Lookup (fun _ => 0) 1 [Transform.id] Transform.id).1,
         (TransformCache.Lookup (fun _ => 0) 1 [Transform.id] Transform.id).2) ∧
      (TransformCache.Lookup (fun _ => 0) 1 [Transform.id] Transform.id).2.Nodup) :=
  ⟨rfl, by decide, by decide,
   transform_cache_interning (fun _ => 0) 1 [Transform.id] Transform.id
     Transform.id Transform.id rfl (by decide) (by decide)⟩

set_option maxHeartbeats 2000000 in
theorem stepD_apiState_not_uninitialized {d : Directive} {s s' : GeneralScene}
    (h : stepD d s = .ok s') (hs : s.currentApiState ≠ .uninitialized) :
    s'.currentApiState ≠ .uninitialized := by
  cases d
  all_goals
    simp only [stepD, GeneralScene.Identity, GeneralScene.Translate,
      GeneralScene.TransformDirective, GeneralScene.ConcatTransform,
      GeneralScene.Rotate, GeneralScene.Scale, GeneralScene.LookAt,
      GeneralScene.CoordinateSystem, GeneralScene.CoordSysTransform,
      GeneralScene.ActiveTransformAll, GeneralScene.ActiveTransformEndTime,
      GeneralScene.ActiveTransformStartTime, GeneralScene.TransformTimes,
      GeneralScene.ColorSpace, GeneralScene.PixelFilter, GeneralScene.Film,
      GeneralScene.Sampler, GeneralScene.Accelerator, GeneralScene.Integrator,
      GeneralScene.Camera, GeneralScene.MakeNamedMedium,
      GeneralScene.MediumInterface, GeneralScene.WorldBegin,
      GeneralScene.AttributeBegin, GeneralScene.AttributeEnd,
      GeneralScene.Attribute, GeneralScene.TransformBegin,
      GeneralScene.TransformEnd, GeneralScene.Texture, GeneralScene.Material,
      GeneralScene.MakeNamedMaterial, GeneralScene.NamedMaterial,
      GeneralScene.LightSource, GeneralScene.AreaLightSource,
      GeneralScene.Shape, GeneralScene.ReverseOrientation,
      GeneralScene.ObjectBegin, GeneralScene.ObjectEnd,
      GeneralScene.ObjectInstance, GeneralScene.WorldEnd,
      verifyInitialized, verifyOptions, verifyWorld, recErr, warn1] at h
  all_goals try simp only [reduceIte] at h
  all_goals (repeat' split at h)
  all_goals try exact Except.noConfusion h
  all_goals try (injection h with h2; rw [← h2]; first | exact hs | simp)
  all_goals (injections; subst_vars; exact hs)

/-- C8: for every time index selected by the active-transform bitmask the
composition directives Translate, Rotate, Scale, ConcatTransform and
LookAt post-multiply the slot by their operator, Identity installs the
identity transform and the direct Transform directive replaces the slot
with the transpose of the supplied row-major matrix; unselected indices
are unchanged. -/
theorem composition_directive_semantics (s : GeneralScene) (op tr : Transform)
    (loc : FileLoc) (i : Fin 2) (hnu : s.currentApiState ≠ .uninitialized) :
    CompositionSemantics s op tr loc i := by
  refine ⟨fun hbit => ?_, fun hbit => ?_, rfl⟩ <;>
    simp [curSlotAfter, stepD, GeneralScene.Translate, GeneralScene.Rotate,
      GeneralScene.Scale, GeneralScene.LookAt, GeneralScene.ConcatTransform,
      GeneralScene.Identity, GeneralScene.TransformDirective,
      verifyInitialized, hnu, forActiveTransforms, resultState, hbit]

/-- Concrete instantiation of `composition_directive_semantics`. -/
theorem composition_directive_semantics_witness :
    GeneralScene.initScene.currentApiState ≠ APIState.uninitialized ∧
    CompositionSemantics GeneralScene.initScene Transform.id Transform.id 0 0 :=
  ⟨by decide,
   composition_directive_semantics GeneralScene.initScene Transform.id
     Transform.id 0 0 (by decide)⟩

/-- C7 (amended): every directive gated on the world block is rejected with
one recoverable error (state otherwise unchanged) while the gate is in the
options block — but the three ActiveTransform directives are not gated at
all: they update the bitmask unconditionally. -/
theorem options_block_rejections (s : GeneralScene) (loc : FileLoc)
    (name type texname target : String) (params : ParsedParameterVector)
    (hopt : s.currentApiState = .optionsBlock) :
    OptionsBlockRejections s loc name type texname target params := by
  unfold OptionsBlockRejections
  refine ⟨?_, ?_, ?_, ?_, ?_, ?_, ?_, ?_, ?_, ?_, ?_, ?_, ?_, ?_, ?_, ?_, ?_, ?_, ?_⟩ <;>
    simp [stepD, GeneralScene.AttributeBegin, GeneralScene.AttributeEnd,
      GeneralScene.TransformBegin, GeneralScene.TransformEnd,
      GeneralScene.Texture, GeneralScene.Material,
      GeneralScene.MakeNamedMaterial, GeneralScene.NamedMaterial,
      GeneralScene.LightSource, GeneralScene.AreaLightSource,
      GeneralScene.Shape, GeneralScene.ReverseOrientation,
      GeneralScene.ObjectBegin, GeneralScene.ObjectEnd,
      GeneralScene.ObjectInstance, GeneralScene.WorldEnd,
      GeneralScene.ActiveTransformAll, GeneralScene.ActiveTransformStartTime,
      GeneralScene.ActiveTransformEndTime,
      verifyWorld, verifyInitialized, hopt]

/-- Concrete instantiation of `options_block_rejections`. -/
theorem options_block_rejections_witness :
    GeneralScene.initScene.currentApiState = APIState.optionsBlock ∧
    OptionsBlockRejections GeneralScene.initScene 0 "n" "t" "x" "g" [] :=
  ⟨by decide,
   options_block_rejections GeneralScene.initScene 0 "n" "t" "x" "g" [] (by decide)⟩

/-- C7 counterexample: `ActiveTransform EndTime` issued in the options
block is not rejected — it raises no error and changes the
active-transform bitmask. -/
theorem options_gating_counterexample :
    resultOk (execList [.activeTransformEndTime 0] GeneralScene.initScene) = true ∧
    recoverableErrorsAfter [.activeTransformEndTime 0] GeneralScene.initScene = some 0 ∧
    (resultState (execList [.activeTransformEndTime 0] GeneralScene.initScene)).map
      (fun s => s.activeTransformBits) = some EndTransformBits ∧
    GeneralScene.initScene.activeTransformBits ≠ EndTransformBits := by
  decide

/-- C2 (amended): an `AttributeEnd` over an innermost open `TransformBegin`
scope is fatal only when the graphics-state stack is non-empty (an
enclosing attribute/object scope exists); with an empty graphics-state
stack the call is the recoverable "Unmatched AttributeEnd", logged and
ignored. -/
theorem attribute_end_transform_mismatch (s : GeneralScene) (loc loc2 : FileLoc)
    (hw : s.currentApiState = .worldBlock) :
    (s.pushedGraphicsStates = [] → stepD (.attributeEnd loc) s = .ok (recErr s)) ∧
    (s.pushedGraphicsStates ≠ [] →
      s.pushStack.getLast? = some (PushKind.t, loc2) →
      stepD (.attributeEnd loc) s = .error ()) := by
  constructor
  · intro hempty
    simp [stepD, GeneralScene.AttributeEnd, verifyWorld, verifyInitialized,
      hw, hempty]
  · intro hg hk
    cases hgl : s.pushedGraphicsStates.getLast? with
    | none =>
      simp [stepD, GeneralScene.AttributeEnd, verifyWorld, verifyInitialized,
        hw, hg, hk, hgl]
    | some g =>
      cases htl : s.pushedTransforms.getLast? with
      | none =>
        simp [stepD, GeneralScene.AttributeEnd, verifyWorld, verifyInitialized,
          hw, hg, hk, hgl, htl]
      | some ts =>
        cases hbl : s.pushedActiveTransformBits.getLast? with
        | none =>
          simp [stepD, GeneralScene.AttributeEnd, verifyWorld, verifyInitialized,
            hw, hg, hk, hgl, htl, hbl]
        | some bits =>
          simp [stepD, GeneralScene.AttributeEnd, verifyWorld, verifyInitialized,
            hw, hg, hk, hgl, htl, hbl]

/-- Concrete instantiation of `attribute_end_transform_mismatch`: after
`WorldBegin; AttributeBegin; TransformBegin`, an `AttributeEnd` is fatal. -/
theorem attribute_end_transform_mismatch_witness :
    (runOr [.worldBegin 0, .attributeBegin 1, .transformBegin 2]).currentApiState =
      APIState.worldBlock ∧
    stepD (.attributeEnd 3) (runOr [.worldBegin 0, .attributeBegin 1, .transformBegin 2]) =
      .error () :=
  ⟨by decide,
   (attribute_end_transform_mismatch
      (runOr [.worldBegin 0, .attributeBegin 1, .transformBegin 2]) 3 2
      (by decide)).2 (by decide) (by decide)⟩

/-- C2 counterexample: for the two-directive world-block sequence
`TransformBegin; AttributeEnd` the code raises no fatal error — the call is
handled as the recoverable "Unmatched AttributeEnd" (one recoverable error,
call ignored, transform stacks left as they were). -/
theorem transform_attribute_mismatch_not_fatal :
    resultOk (execList [.worldBegin 0, .transformBegin 1, .attributeEnd 2]
      GeneralScene.initScene) = true ∧
    recoverableErrorsAfter [.worldBegin 0, .transformBegin 1, .attributeEnd 2]
      GeneralScene.initScene = some 1 ∧
    stackLengthsAfter [.worldBegin 0, .transformBegin 1, .attributeEnd 2]
      GeneralScene.initScene = some (0, 1, 1) := by
  decide

/-- C3 (amended): the named-material, named-medium and instance-definition
registries are insertion-checked (redefinition is fatal), but
`CoordinateSystem` silently overwrites an already-registered name without
raising any error. -/
theorem named_registry_insertion_checks (s : GeneralScene) (loc : FileLoc)
    (name : String) (params : ParsedParameterVector)
    (hw : s.currentApiState = .worldBlock) :
    RegistryInsertionChecks s loc name params := by
  refine ⟨fun h => ?_, fun h => ?_, fun h => ?_, ?_⟩
  · simp [stepD, GeneralScene.MakeNamedMaterial, verifyWorld, verifyInitialized,
      hw, h]
  · have hmedia : ((if s.curTransform.IsAnimated then warn1 s else s).media) name
        = s.media name := by
      split <;> rfl
    simp [stepD, GeneralScene.MakeNamedMedium, verifyInitialized, hw, hmedia, h]
  · simp [stepD, GeneralScene.ObjectBegin, GeneralScene.Attribute,
      verifyWorld, verifyInitialized, hw, h]
  · refine ⟨{ s with
        namedCoordinateSystems :=
          updateMap s.namedCoordinateSystems name s.curTransform },
      ?_, ?_, ?_⟩
    · simp [stepD, GeneralScene.CoordinateSystem, verifyInitialized, hw]
    · simp [updateMap]
    · rfl

/-- Concrete instantiation of `named_registry_insertion_checks`. -/
theorem named_registry_insertion_checks_witness :
    (runOr [.worldBegin 0]).currentApiState = APIState.worldBlock ∧
    RegistryInsertionChecks (runOr [.worldBegin 0]) 1 "n" [] :=
  ⟨by decide,
   named_registry_insertion_checks (runOr [.worldBegin 0]) 1 "n" [] (by decide)⟩

/-- C3 counterexample: registering coordinate system "a", changing the
current transform, and registering "a" again raises no error and replaces
the stored transform set — `CoordinateSystem` is not insertion-checked. -/
theorem coordinate_system_overwrite_counterexample :
    resultOk (execList [.coordinateSystem "a" 0, .transformD twoT 1,
      .coordinateSystem "a" 2] GeneralScene.initScene) = true ∧
    recoverableErrorsAfter [.coordinateSystem "a" 0, .transformD twoT 1,
      .coordinateSystem "a" 2] GeneralScene.initScene = some 0 ∧
    namedCSAfter [.coordinateSystem "a" 0] GeneralScene.initScene "a" =
      some (some fun _ => Transform.id) ∧
    namedCSAfter [.coordinateSystem "a" 0, .transformD twoT 1,
      .coordinateSystem "a" 2] GeneralScene.initScene "a" ≠
      some (some fun _ => Transform.id) := by
  decide

/-- C6: once `AreaLightSource` has set the pending area light, every
`Shape` call in the same scope appends a new, independent area-light entity
carrying the pending values to the area-lights list, links the shape to it
by index, and leaves the pending state (indeed the whole graphics state)
untouched — the pending values are not consumed. -/
theorem area_light_sticky_shape (s : GeneralScene) (name : String)
    (params : ParsedParameterVector) (loc : FileLoc)
    (hw : s.currentApiState = .worldBlock)
    (hal : s.graphicsState.areaLightName ≠ "") :
    AreaLightSticky s name params loc := by
  have h1 : (s.currentApiState = APIState.uninitialized) = False := by simp [hw]
  have h2 : (s.currentApiState = APIState.optionsBlock) = False := by simp [hw]
  have h4 : (s.graphicsState.areaLightName = "") = False := by simp [hal]
  constructor
  · simp only [stepD, GeneralScene.Shape, verifyWorld, verifyInitialized,
      h1, h2, h4, warn1, ne_eq, not_false_iff, if_false, if_true,
      ite_false, ite_true]
    repeat' split
    all_goals exact ⟨_, rfl, rfl, rfl⟩
  · intro hstatic hinst
    have h5 : (¬s.curTransform 0 = s.curTransform 1) = False := by simp [hstatic]
    simp only [stepD, GeneralScene.Shape, verifyWorld, verifyInitialized,
      h1, h2, h4, h5, hinst, warn1, ne_eq, not_false_iff, if_false, if_true,
      ite_false, ite_true]
    exact ⟨_, rfl, by simp [List.getLast?_concat], by simp⟩

/-- Concrete instantiation of `area_light_sticky_shape`. -/
theorem area_light_sticky_shape_witness :
    (runOr [.worldBegin 0, .areaLightSource "diffuse" [] 1]).currentApiState =
      APIState.worldBlock ∧
    (runOr [.worldBegin 0, .areaLightSource "diffuse" [] 1]).graphicsState.areaLightName ≠ "" ∧
    AreaLightSticky (runOr [.worldBegin 0, .areaLightSource "diffuse" [] 1])
      "sphere" [] 2 :=
  ⟨by decide, by decide,
   area_light_sticky_shape (runOr [.worldBegin 0, .areaLightSource "diffuse" [] 1])
     "sphere" [] 2 (by decide) (by decide)⟩

theorem attributeBegin_ok_cases {loc : FileLoc} {t t' : GeneralScene}
    (h : stepD (.attributeBegin loc) t = .ok t') :
    t' = recErr t ∨
    t' = { t with
           pushedGraphicsStates := t.pushedGraphicsStates ++ [t.graphicsState],
           pushedTransforms := t.pushedTransforms ++ [t.curTransform],
           pushedActiveTransformBits :=
             t.pushedActiveTransformBits ++ [t.activeTransformBits],
           pushStack := t.pushStack ++ [(PushKind.a, loc)] } := by
  by_cases hu : t.currentApiState = .uninitialized
  · left
    simp [stepD, GeneralScene.AttributeBegin, verifyWorld, verifyInitialized,
      recErr, hu] at h
    rw [← h]
    try simp [recErr, hu]
  · by_cases ho : t.currentApiState = .optionsBlock
    · left
      simp [stepD, GeneralScene.AttributeBegin, verifyWorld, verifyInitialized,
        recErr, hu, ho] at h
      rw [← h]
      try simp [recErr, ho]
    · right
      simp [stepD, GeneralScene.AttributeBegin, verifyWorld, verifyInitialized,
        hu, ho] at h
      rw [← h]

theorem transformBegin_ok_cases {loc : FileLoc} {t t' : GeneralScene}
    (h : stepD (.transformBegin loc) t = .ok t') :
    t' = recErr t ∨
    t' = { t with
           pushedTransforms := t.pushedTransforms ++ [t.curTransform],
           pushedActiveTransformBits :=
             t.pushedActiveTransformBits ++ [t.activeTransformBits],
           pushStack := t.pushStack ++ [(PushKind.t, loc)] } := by
  by_cases hu : t.currentApiState = .uninitialized
  · left
    simp [stepD, GeneralScene.TransformBegin, verifyWorld, verifyInitialized,
      recErr, hu] at h
    rw [← h]
    try simp [recErr, hu]
  · by_cases ho : t.currentApiState = .optionsBlock
    · left
      simp [stepD, GeneralScene.TransformBegin, verifyWorld, verifyInitialized,
        recErr, hu, ho] at h
      rw [← h]
      try simp [recErr, ho]
    · right
      simp [stepD, GeneralScene.TransformBegin, verifyWorld, verifyInitialized,
        hu, ho] at h
      rw [← h]

theorem objectBegin_ok_cases {name : String} {loc : FileLoc} {t t' : GeneralScene}
    (h : stepD (.objectBegin name loc) t = .ok t') :
    t' = recErr t ∨
    (t.currentInstance = none ∧ t.instanceDefinitions name = none ∧
     t' = { t with
            pushedGraphicsStates := t.pushedGraphicsStates ++ [t.graphicsState],
            pushedTransforms := t.pushedTransforms ++ [t.curTransform],
            pushedActiveTransformBits :=
              t.pushedActiveTransformBits ++ [t.activeTransformBits],
            pushStack := t.pushStack ++ [(PushKind.o, loc)],
            instanceDefinitions :=
              updateMap t.instanceDefinitions name ([], []),
            currentInstance := some name }) := by
  by_cases hu : t.currentApiState = .uninitialized
  · left
    simp [stepD, GeneralScene.ObjectBegin, GeneralScene.Attribute, verifyWorld,
      verifyInitialized, recErr, hu] at h
    rw [← h]
    try simp [recErr, hu]
  · by_cases ho : t.currentApiState = .optionsBlock
    · left
      simp [stepD, GeneralScene.ObjectBegin, GeneralScene.Attribute, verifyWorld,
        verifyInitialized, recErr, hu, ho] at h
      rw [← h]
      try simp [recErr, ho]
    · cases hci : t.currentInstance with
      | some inst =>
        exfalso
        simp [stepD, GeneralScene.ObjectBegin, GeneralScene.Attribute,
          verifyWorld, verifyInitialized, hu, ho, hci] at h
      | none =>
        cases hid : t.instanceDefinitions name with
        | some pr =>
          exfalso
          simp [stepD, GeneralScene.ObjectBegin, GeneralScene.Attribute,
            verifyWorld, verifyInitialized, hu, ho, hci, hid] at h
        | none =>
          right
          refine ⟨rfl, rfl, ?_⟩
          simp [stepD, GeneralScene.ObjectBegin, GeneralScene.Attribute,
            verifyWorld, verifyInitialized, hu, ho, hci, hid] at h
          rw [← h]

theorem attributeEnd_ok_cases {loc : FileLoc} {t t' : GeneralScene}
    (h : stepD (.attributeEnd loc) t = .ok t') :
    t' = recErr t ∨
    ∃ g ts bits l2,
      t.pushedGraphicsStates.getLast? = some g ∧
      t.pushedTransforms.getLast? = some ts ∧
      t.pushedActiveTransformBits.getLast? = some bits ∧
      t.pushStack.getLast? = some (PushKind.a, l2) ∧
      t' = { t with
             graphicsState := g,
             pushedGraphicsStates := t.pushedGraphicsStates.dropLast,
             curTransform := ts,
             pushedTransforms := t.pushedTransforms.dropLast,
             activeTransformBits := bits,
             pushedActiveTransformBits := t.pushedActiveTransformBits.dropLast,
             pushStack := t.pushStack.dropLast } := by
  by_cases hu : t.currentApiState = .uninitialized
  · left
    simp [stepD, GeneralScene.AttributeEnd, verifyWorld, verifyInitialized,
      recErr, hu] at h
    rw [← h]
    try simp [recErr, hu]
  · by_cases ho : t.currentApiState = .optionsBlock
    · left
      simp [stepD, GeneralScene.AttributeEnd, verifyWorld, verifyInitialized,
        recErr, hu, ho] at h
      rw [← h]
      try simp [recErr, ho]
    · by_cases hemp : t.pushedGraphicsStates = []
      · left
        simp [stepD, GeneralScene.AttributeEnd, verifyWorld, verifyInitialized,
          recErr, hu, ho, hemp] at h
        rw [← h]
        try simp [recErr, hemp]
      · cases hgl : t.pushedGraphicsStates.getLast? with
        | none =>
          exfalso
          simp [stepD, GeneralScene.AttributeEnd, verifyWorld, verifyInitialized,
            hu, ho, hemp, hgl] at h
        | some g =>
          cases htl : t.pushedTransforms.getLast? with
          | none =>
            exfalso
            simp [stepD, GeneralScene.AttributeEnd, verifyWorld,
              verifyInitialized, hu, ho, hemp, hgl, htl] at h
          | some ts =>
            cases hbl : t.pushedActiveTransformBits.getLast? with
            | none =>
              exfalso
              simp [stepD, GeneralScene.AttributeEnd, verifyWorld,
                verifyInitialized, hu, ho, hemp, hgl, htl, hbl] at h
            | some bits =>
              cases hkl : t.pushStack.getLast? with
              | none =>
                exfalso
                simp [stepD, GeneralScene.AttributeEnd, verifyWorld,
                  verifyInitialized, hu, ho, hemp, hgl, htl, hbl, hkl] at h
              | some kl =>
                obtain ⟨k, l2⟩ := kl
                cases k with
                | t =>
                  exfalso
                  simp [stepD, GeneralScene.AttributeEnd, verifyWorld,
                    verifyInitialized, hu, ho, hemp, hgl, htl, hbl, hkl] at h
                | o =>
                  exfalso
                  simp [stepD, GeneralScene.AttributeEnd, verifyWorld,
                    verifyInitialized, hu, ho, hemp, hgl, htl, hbl, hkl] at h
                | a =>
                  right
                  refine ⟨g, ts, bits, l2, rfl, rfl, rfl, rfl, ?_⟩
                  simp [stepD, GeneralScene.AttributeEnd, verifyWorld,
                    verifyInitialized, hu, ho, hemp, hgl, htl, hbl, hkl] at h
                  rw [← h]

theorem transformEnd_ok_cases {loc : FileLoc} {t t' : GeneralScene}
    (h : stepD (.transformEnd loc) t = .ok t') :
    t' = recErr t ∨
    ∃ ts bits l2,
      t.pushedTransforms.getLast? = some ts ∧
      t.pushedActiveTransformBits.getLast? = some bits ∧
      t.pushStack.getLast? = some (PushKind.t, l2) ∧
      t' = { t with
             curTransform := ts,
             pushedTransforms := t.pushedTransforms.dropLast,
             activeTransformBits := bits,
             pushedActiveTransformBits := t.pushedActiveTransformBits.dropLast,
             pushStack := t.pushStack.dropLast } := by
  by_cases hu : t.currentApiState = .uninitialized
  · left
    simp [stepD, GeneralScene.TransformEnd, verifyWorld, verifyInitialized,
      recErr, hu] at h
    rw [← h]
    try simp [recErr, hu]
  · by_cases ho : t.currentApiState = .optionsBlock
    · left
      simp [stepD, GeneralScene.TransformEnd, verifyWorld, verifyInitialized,
        recErr, hu, ho] at h
      rw [← h]
      try simp [recErr, ho]
    · by_cases hemp : t.pushedTransforms = []
      · left
        simp [stepD, GeneralScene.TransformEnd, verifyWorld, verifyInitialized,
          recErr, hu, ho, hemp] at h
        rw [← h]
        try simp [recErr, hemp]
      · cases htl : t.pushedTransforms.getLast? with
        | none =>
          exfalso
          simp [stepD, GeneralScene.TransformEnd, verifyWorld, verifyInitialized,
            hu, ho, hemp, htl] at h
        | some ts =>
          cases hbl : t.pushedActiveTransformBits.getLast? with
          | none =>
            exfalso
            simp [stepD, GeneralScene.TransformEnd, verifyWorld,
              verifyInitialized, hu, ho, hemp, htl, hbl] at h
          | some bits =>
            cases hkl : t.pushStack.getLast? with
            | none =>
              exfalso
              simp [stepD, GeneralScene.TransformEnd, verifyWorld,
                verifyInitialized, hu, ho, hemp, htl, hbl, hkl] at h
            | some kl =>
              obtain ⟨k, l2⟩ := kl
              cases k with
              | a =>
                exfalso
                simp [stepD, GeneralScene.TransformEnd, verifyWorld,
                  verifyInitialized, hu, ho, hemp, htl, hbl, hkl] at h
              | o =>
                exfalso
                simp [stepD, GeneralScene.TransformEnd, verifyWorld,
                  verifyInitialized, hu, ho, hemp, htl, hbl, hkl] at h
              | t =>
                right
                refine ⟨ts, bits, l2, rfl, rfl, rfl, ?_⟩
                simp [stepD, GeneralScene.TransformEnd, verifyWorld,
                  verifyInitialized, hu, ho, hemp, htl, hbl, hkl] at h
                rw [← h]

theorem objectEnd_ok_cases {loc : FileLoc} {t t' : GeneralScene}
    (h : stepD (.objectEnd loc) t = .ok t') :
    t' = recErr t ∨
    ∃ g ts bits l2,
      t.currentInstance.isSome = true ∧
      t.pushedGraphicsStates.getLast? = some g ∧
      t.pushedTransforms.getLast? = some ts ∧
      t.pushedActiveTransformBits.getLast? = some bits ∧
      t.pushStack.getLast? = some (PushKind.o, l2) ∧
      t' = { t with
             currentInstance := none,
             graphicsState := g,
             pushedGraphicsStates := t.pushedGraphicsStates.dropLast,
             curTransform := ts,
             pushedTransforms := t.pushedTransforms.dropLast,
             activeTransformBits := bits,
             pushedActiveTransformBits := t.pushedActiveTransformBits.dropLast,
             pushStack := t.pushStack.dropLast } := by
  by_cases hu : t.currentApiState = .uninitialized
  · left
    simp [stepD, GeneralScene.ObjectEnd, verifyWorld, verifyInitialized,
      recErr, hu] at h
    rw [← h]
    try simp [recErr, hu]
  · by_cases ho : t.currentApiState = .optionsBlock
    · left
      simp [stepD, GeneralScene.ObjectEnd, verifyWorld, verifyInitialized,
        recErr, hu, ho] at h
      rw [← h]
      try simp [recErr, ho]
    · cases hci : t.currentInstance with
      | none =>
        exfalso
        simp [stepD, GeneralScene.ObjectEnd, verifyWorld, verifyInitialized,
          hu, ho, hci] at h
      | some inst =>
        cases hgl : t.pushedGraphicsStates.getLast? with
        | none =>
          exfalso
          simp [stepD, GeneralScene.ObjectEnd, verifyWorld, verifyInitialized,
            hu, ho, hci, hgl] at h
        | some g =>
          cases htl : t.pushedTransforms.getLast? with
          | none =>
            exfalso
            simp [stepD, GeneralScene.ObjectEnd, verifyWorld, verifyInitialized,
              hu, ho, hci, hgl, htl] at h
          | some ts =>
            cases hbl : t.pushedActiveTransformBits.getLast? with
            | none =>
              exfalso
              simp [stepD, GeneralScene.ObjectEnd, verifyWorld,
                verifyInitialized, hu, ho, hci, hgl, htl, hbl] at h
            | some bits =>
              cases hkl : t.pushStack.getLast? with
              | none =>
                exfalso
                simp [stepD, GeneralScene.ObjectEnd, verifyWorld,
                  verifyInitialized, hu, ho, hci, hgl, htl, hbl, hkl] at h
              | some kl =>
                obtain ⟨k, l2⟩ := kl
                cases k with
                | a =>
                  exfalso
                  simp [stepD, GeneralScene.ObjectEnd, verifyWorld,
                    verifyInitialized, hu, ho, hci, hgl, htl, hbl, hkl] at h
                | t =>
                  exfalso
                  simp [stepD, GeneralScene.ObjectEnd, verifyWorld,
                    verifyInitialized, hu, ho, hci, hgl, htl, hbl, hkl] at h
                | o =>
                  right
                  refine ⟨g, ts, bits, l2, rfl, rfl, rfl, rfl, rfl, ?_⟩
                  simp [stepD, GeneralScene.ObjectEnd, verifyWorld,
                    verifyInitialized, hu, ho, hci, hgl, htl, hbl, hkl] at h
                  rw [← h]

theorem worldEnd_ok_cases {loc : FileLoc} {t t' : GeneralScene}
    (h : stepD (.worldEnd loc) t = .ok t') :
    t' = recErr t ∨
    ∃ w, t' = { t with
                warnings := w,
                pushedGraphicsStates := [],
                pushedTransforms := [] } := by
  by_cases hu : t.currentApiState = .uninitialized
  · left
    simp [stepD, GeneralScene.WorldEnd, verifyWorld, verifyInitialized,
      recErr, hu] at h
    rw [← h]
    try simp [recErr, hu]
  · by_cases ho : t.currentApiState = .optionsBlock
    · left
      simp [stepD, GeneralScene.WorldEnd, verifyWorld, verifyInitialized,
        recErr, hu, ho] at h
      rw [← h]
      try simp [recErr, ho]
    · right
      simp [stepD, GeneralScene.WorldEnd, verifyWorld, verifyInitialized,
        hu, ho] at h
      exact ⟨_, h.symm⟩

theorem material_ok_cases {name : String} {params : ParsedParameterVector}
    {loc : FileLoc} {t t' : GeneralScene}
    (h : stepD (.material name params loc) t = .ok t') :
    t' = recErr t ∨
    t' = { t with
           materials := t.materials ++
             [⟨name, mkDict params t.graphicsState.materialAttributes
                t.graphicsState.colorSpace, loc⟩],
           graphicsState := { t.graphicsState with
             currentMaterialIndex := (t.materials.length : Int),
             currentMaterialName := "" } } := by
  by_cases hu : t.currentApiState = .uninitialized
  · left
    simp [stepD, GeneralScene.Material, verifyWorld, verifyInitialized,
      recErr, hu] at h
    rw [← h]
    try simp [recErr, hu]
  · by_cases ho : t.currentApiState = .optionsBlock
    · left
      simp [stepD, GeneralScene.Material, verifyWorld, verifyInitialized,
        recErr, hu, ho] at h
      rw [← h]
      try simp [recErr, ho]
    · right
      simp [stepD, GeneralScene.Material, verifyWorld, verifyInitialized,
        hu, ho] at h
      rw [← h]
      try simp [mkDict]
      try omega

theorem namedMaterial_ok_cases {name : String} {loc : FileLoc}
    {t t' : GeneralScene}
    (h : stepD (.namedMaterial name loc) t = .ok t') :
    t' = recErr t ∨
    t' = { t with graphicsState := { t.graphicsState with
           currentMaterialName := name, currentMaterialIndex := -1 } } := by
  by_cases hu : t.currentApiState = .uninitialized
  · left
    simp [stepD, GeneralScene.NamedMaterial, verifyWorld, verifyInitialized,
      recErr, hu] at h
    rw [← h]
    try simp [recErr, hu]
  · by_cases ho : t.currentApiState = .optionsBlock
    · left
      simp [stepD, GeneralScene.NamedMaterial, verifyWorld, verifyInitialized,
        recErr, hu, ho] at h
      rw [← h]
      try simp [recErr, ho]
    · right
      simp [stepD, GeneralScene.NamedMaterial, verifyWorld, verifyInitialized,
        hu, ho] at h
      rw [← h]

theorem shape_ok_frame {name : String} {params : ParsedParameterVector}
    {loc : FileLoc} {t t' : GeneralScene}
    (h : stepD (.shape name params loc) t = .ok t') :
    t'.graphicsState = t.graphicsState ∧
    t'.pushedGraphicsStates = t.pushedGraphicsStates ∧
    t'.materials = t.materials ∧
    (∀ e ∈ t'.shapes,
      e ∈ t.shapes ∨ e.materialIndex = t.graphicsState.currentMaterialIndex) ∧
    (∀ e ∈ t'.animatedShapes,
      e ∈ t.animatedShapes ∨
        e.materialIndex = t.graphicsState.currentMaterialIndex) ∧
    (∀ nm pr', t'.instanceDefinitions nm = some pr' →
      (∀ e ∈ pr'.1,
        (∃ pr, t.instanceDefinitions nm = some pr ∧ e ∈ pr.1) ∨
          e.materialIndex = t.graphicsState.currentMaterialIndex) ∧
      (∀ e ∈ pr'.2,
        (∃ pr, t.instanceDefinitions nm = some pr ∧ e ∈ pr.2) ∨
          e.materialIndex = t.graphicsState.currentMaterialIndex)) := by
  by_cases hu : t.currentApiState = .uninitialized
  · simp [stepD, GeneralScene.Shape, verifyWorld, verifyInitialized,
      recErr, hu] at h
    rw [← h]
    exact ⟨rfl, rfl, rfl, fun e he => Or.inl he, fun e he => Or.inl he,
      fun nm pr' hpr => ⟨fun e he => Or.inl ⟨pr', hpr, he⟩,
        fun e he => Or.inl ⟨pr', hpr, he⟩⟩⟩
  · by_cases ho : t.currentApiState = .optionsBlock
    · simp [stepD, GeneralScene.Shape, verifyWorld, verifyInitialized,
        recErr, hu, ho] at h
      rw [← h]
      exact ⟨rfl, rfl, rfl, fun e he => Or.inl he, fun e he => Or.inl he,
        fun nm pr' hpr => ⟨fun e he => Or.inl ⟨pr', hpr, he⟩,
          fun e he => Or.inl ⟨pr', hpr, he⟩⟩⟩
    · by_cases haln : t.graphicsState.areaLightName = ""
      · by_cases hanim : t.curTransform 0 = t.curTransform 1
        · cases hci : t.currentInstance with
          | none =>
            simp [stepD, GeneralScene.Shape, verifyWorld, verifyInitialized,
              hu, ho, haln, hanim, hci] at h
            rw [← h]
            refine ⟨rfl, rfl, rfl, fun e he => ?_, fun e he => Or.inl he,
              fun nm pr' hpr => ⟨fun e he => Or.inl ⟨pr', hpr, he⟩,
                fun e he => Or.inl ⟨pr', hpr, he⟩⟩⟩
            rcases List.mem_append.mp he with h1 | h1
            · exact Or.inl h1
            · rw [List.mem_singleton.mp h1]
              exact Or.inr rfl
          | some inst =>
            simp [stepD, GeneralScene.Shape, verifyWorld, verifyInitialized,
              hu, ho, haln, hanim, hci] at h
            rw [← h]
            refine ⟨rfl, rfl, rfl, fun e he => Or.inl he, fun e he => Or.inl he,
              fun nm pr' hpr => ?_⟩
            simp only [updateMap] at hpr
            by_cases hnm : nm = inst
            · subst hnm
              simp only [if_pos rfl] at hpr
              injection hpr with hpr
              subst hpr
              constructor
              · intro e he
                rcases List.mem_append.mp he with h1 | h1
                · cases hdef : t.instanceDefinitions nm with
                  | none => rw [hdef] at h1; simp at h1
                  | some pr => exact Or.inl ⟨pr, rfl, by rw [hdef] at h1; simpa using h1⟩
                · rw [List.mem_singleton.mp h1]
                  exact Or.inr rfl
              · intro e he
                cases hdef : t.instanceDefinitions nm with
                | none => rw [hdef] at he; simp at he
                | some pr => exact Or.inl ⟨pr, rfl, by rw [hdef] at he; simpa using he⟩
            · simp only [if_neg hnm] at hpr
              exact ⟨fun e he => Or.inl ⟨pr', hpr, he⟩,
                fun e he => Or.inl ⟨pr', hpr, he⟩⟩
        · cases hci : t.currentInstance with
          | none =>
            simp [stepD, GeneralScene.Shape, verifyWorld, verifyInitialized,
              hu, ho, haln, hanim, hci] at h
            rw [← h]
            refine ⟨rfl, rfl, rfl, fun e he => Or.inl he, fun e he => ?_,
              fun nm pr' hpr => ⟨fun e he => Or.inl ⟨pr', hpr, he⟩,
                fun e he => Or.inl ⟨pr', hpr, he⟩⟩⟩
            rcases List.mem_append.mp he with h1 | h1
            · exact Or.inl h1
            · rw [List.mem_singleton.mp h1]
              exact Or.inr rfl
          | some inst =>
            simp [stepD, GeneralScene.Shape, verifyWorld, verifyInitialized,
              hu, ho, haln, hanim, hci] at h
            rw [← h]
            refine ⟨rfl, rfl, rfl, fun e he => Or.inl he, fun e he => Or.inl he,
              fun nm pr' hpr => ?_⟩
            simp only [updateMap] at hpr
            by_cases hnm : nm = inst
            · subst hnm
              simp only [if_pos rfl] at hpr
              injection hpr with hpr
              subst hpr
              constructor
              · intro e he
                cases hdef : t.instanceDefinitions nm with
                | none => rw [hdef] at he; simp at he
                | some pr => exact Or.inl ⟨pr, rfl, by rw [hdef] at he; simpa using he⟩
              · intro e he
                rcases List.mem_append.mp he with h1 | h1
                · cases hdef : t.instanceDefinitions nm with
                  | none => rw [hdef] at h1; simp at h1
                  | some pr => exact Or.inl ⟨pr, rfl, by rw [hdef] at h1; simpa using h1⟩
                · rw [List.mem_singleton.mp h1]
                  exact Or.inr rfl
            · simp only [if_neg hnm] at hpr
              exact ⟨fun e he => Or.inl ⟨pr', hpr, he⟩,
                fun e he => Or.inl ⟨pr', hpr, he⟩⟩
      · by_cases hanim : t.curTransform 0 = t.curTransform 1
        · cases hci : t.currentInstance with
          | none =>
            simp [stepD, GeneralScene.Shape, verifyWorld, verifyInitialized,
              hu, ho, haln, hanim, hci, warn1] at h
            rw [← h]
            refine ⟨rfl, rfl, rfl, fun e he => ?_, fun e he => Or.inl he,
              fun nm pr' hpr => ⟨fun e he => Or.inl ⟨pr', hpr, he⟩,
                fun e he => Or.inl ⟨pr', hpr, he⟩⟩⟩
            rcases List.mem_append.mp he with h1 | h1
            · exact Or.inl h1
            · rw [List.mem_singleton.mp h1]
              exact Or.inr rfl
          | some inst =>
            simp [stepD, GeneralScene.Shape, verifyWorld, verifyInitialized,
              hu, ho, haln, hanim, hci, warn1] at h
            rw [← h]
            refine ⟨rfl, rfl, rfl, fun e he => Or.inl he, fun e he => Or.inl he,
              fun nm pr' hpr => ?_⟩
            simp only [updateMap] at hpr
            by_cases hnm : nm = inst
            · subst hnm
              simp only [if_pos rfl] at hpr
              injection hpr with hpr
              subst hpr
              constructor
              · intro e he
                rcases List.mem_append.mp he with h1 | h1
                · cases hdef : t.instanceDefinitions nm with
                  | none => rw [hdef] at h1; simp at h1
                  | some pr => exact Or.inl ⟨pr, rfl, by rw [hdef] at h1; simpa using h1⟩
                · rw [List.mem_singleton.mp h1]
                  exact Or.inr rfl
              · intro e he
                cases hdef : t.instanceDefinitions nm with
                | none => rw [hdef] at he; simp at he
                | some pr => exact Or.inl ⟨pr, rfl, by rw [hdef] at he; simpa using he⟩
            · simp only [if_neg hnm] at hpr
              exact ⟨fun e he => Or.inl ⟨pr', hpr, he⟩,
                fun e he => Or.inl ⟨pr', hpr, he⟩⟩
        · cases hci : t.currentInstance with
          | none =>
            simp [stepD, GeneralScene.Shape, verifyWorld, verifyInitialized,
              hu, ho, haln, hanim, hci, warn1] at h
            rw [← h]
            refine ⟨rfl, rfl, rfl, fun e he => Or.inl he, fun e he => ?_,
              fun nm pr' hpr => ⟨fun e he => Or.inl ⟨pr', hpr, he⟩,
                fun e he => Or.inl ⟨pr', hpr, he⟩⟩⟩
            rcases List.mem_append.mp he with h1 | h1
            · exact Or.inl h1
            · rw [List.mem_singleton.mp h1]
              exact Or.inr rfl
          | some inst =>
            simp [stepD, GeneralScene.Shape, verifyWorld, verifyInitialized,
              hu, ho, haln, hanim, hci, warn1] at h
            rw [← h]
            refine ⟨rfl, rfl, rfl, fun e he => Or.inl he, fun e he => Or.inl he,
              fun nm pr' hpr => ?_⟩
            simp only [updateMap] at hpr
            by_cases hnm : nm = inst
            · subst hnm
              simp only [if_pos rfl] at hpr
              injection hpr with hpr
              subst hpr
              constructor
              · intro e he
                cases hdef : t.instanceDefinitions nm with
                | none => rw [hdef] at he; simp at he
                | some pr => exact Or.inl ⟨pr, rfl, by rw [hdef] at he; simpa using he⟩
              · intro e he
                rcases List.mem_append.mp he with h1 | h1
                · cases hdef : t.instanceDefinitions nm with
                  | none => rw [hdef] at h1; simp at h1
                  | some pr => exact Or.inl ⟨pr, rfl, by rw [hdef] at h1; simpa using h1⟩
                · rw [List.mem_singleton.mp h1]
                  exact Or.inr rfl
            · simp only [if_neg hnm] at hpr
              exact ⟨fun e he => Or.inl ⟨pr', hpr, he⟩,
                fun e he => Or.inl ⟨pr', hpr, he⟩⟩

theorem getLast?_decomp {α : Type} :
    ∀ {l : List α} {x : α}, l.getLast? = some x → l = l.dropLast ++ [x] := by
  intro l
  induction l with
  | nil => intro x h; simp at h
  | cons a l ih =>
    intro x h
    cases l with
    | nil => simp_all
    | cons b l2 =>
      rw [List.getLast?_cons_cons] at h
      have := ih h
      rw [List.dropLast_cons₂]
      rw [List.cons_append]
      rw [← this]

theorem mem_of_getLast?M {α : Type} {l : List α} {x : α}
    (h : l.getLast? = some x) : x ∈ l := by
  rw [getLast?_decomp h]
  simp

theorem mem_of_dropLastM {α : Type} {l : List α} {x : α}
    (h : x ∈ l.dropLast) : x ∈ l := by
  induction l with
  | nil => simp at h
  | cons a l ih =>
    cases l with
    | nil => simp at h
    | cons b l2 =>
      rw [List.dropLast_cons₂] at h
      rcases List.mem_cons.mp h with rfl | h2
      · exact List.mem_cons_self _ _
      · exact List.mem_cons_of_mem _ (ih h2)

theorem scope_step_stack_inv {d : Directive} {t t' : GeneralScene}
    (hd : d.isScope = true) (h : stepD d t = .ok t') (hi : StackInv t) :
    StackInv t' := by
  obtain ⟨h1, h2, h3⟩ := hi
  cases d
  all_goals simp only [Directive.isScope] at hd
  all_goals try exact Bool.noConfusion hd
  case attributeBegin loc =>
    rcases attributeBegin_ok_cases h with rfl | rfl
    · exact ⟨h1, h2, h3⟩
    · refine ⟨?_, ?_, ?_⟩ <;>
        simp only [StackInv, List.filter_append, List.length_append] <;>
        simp [h1, h2, h3]
  case transformBegin loc =>
    rcases transformBegin_ok_cases h with rfl | rfl
    · exact ⟨h1, h2, h3⟩
    · refine ⟨?_, ?_, ?_⟩ <;>
        simp only [StackInv, List.filter_append, List.length_append] <;>
        simp [h1, h2, h3]
  case objectBegin name loc =>
    rcases objectBegin_ok_cases h with rfl | ⟨hci, hid, rfl⟩
    · exact ⟨h1, h2, h3⟩
    · refine ⟨?_, ?_, ?_⟩ <;>
        simp only [StackInv, List.filter_append, List.length_append] <;>
        simp [h1, h2, h3]
  case attributeEnd loc =>
    rcases attributeEnd_ok_cases h with rfl | ⟨g, ts, bits, l2, hgl, htl, hbl, hkl, rfl⟩
    · exact ⟨h1, h2, h3⟩
    · obtain ⟨st', hst⟩ : ∃ u, t.pushStack = u ++ [(PushKind.a, l2)] :=
        ⟨t.pushStack.dropLast, getLast?_decomp hkl⟩
      obtain ⟨gs', hgs⟩ : ∃ u, t.pushedGraphicsStates = u ++ [g] :=
        ⟨_, getLast?_decomp hgl⟩
      obtain ⟨tr', htr⟩ : ∃ u, t.pushedTransforms = u ++ [ts] :=
        ⟨_, getLast?_decomp htl⟩
      obtain ⟨bt', hbt⟩ : ∃ u, t.pushedActiveTransformBits = u ++ [bits] :=
        ⟨_, getLast?_decomp hbl⟩
      simp only [hst, hgs, htr, hbt] at h1 h2 h3
      refine ⟨?_, ?_, ?_⟩ <;>
        simp only [StackInv, hst, hgs, htr, hbt, List.dropLast_concat,
          List.filter_append, List.length_append] <;>
        simp_all <;> omega
  case transformEnd loc =>
    rcases transformEnd_ok_cases h with rfl | ⟨ts, bits, l2, htl, hbl, hkl, rfl⟩
    · exact ⟨h1, h2, h3⟩
    · obtain ⟨st', hst⟩ : ∃ u, t.pushStack = u ++ [(PushKind.t, l2)] :=
        ⟨t.pushStack.dropLast, getLast?_decomp hkl⟩
      obtain ⟨tr', htr⟩ : ∃ u, t.pushedTransforms = u ++ [ts] :=
        ⟨_, getLast?_decomp htl⟩
      obtain ⟨bt', hbt⟩ : ∃ u, t.pushedActiveTransformBits = u ++ [bits] :=
        ⟨_, getLast?_decomp hbl⟩
      simp only [hst, htr, hbt] at h1 h2 h3
      refine ⟨?_, ?_, ?_⟩ <;>
        simp only [StackInv, hst, htr, hbt, List.dropLast_concat,
          List.filter_append, List.length_append] <;>
        simp_all <;> omega
  case objectEnd loc =>
    rcases objectEnd_ok_cases h with rfl | ⟨g, ts, bits, l2, hci, hgl, htl, hbl, hkl, rfl⟩
    · exact ⟨h1, h2, h3⟩
    · obtain ⟨st', hst⟩ : ∃ u, t.pushStack = u ++ [(PushKind.o, l2)] :=
        ⟨t.pushStack.dropLast, getLast?_decomp hkl⟩
      obtain ⟨gs', hgs⟩ : ∃ u, t.pushedGraphicsStates = u ++ [g] :=
        ⟨_, getLast?_decomp hgl⟩
      obtain ⟨tr', htr⟩ : ∃ u, t.pushedTransforms = u ++ [ts] :=
        ⟨_, getLast?_decomp htl⟩
      obtain ⟨bt', hbt⟩ : ∃ u, t.pushedActiveTransformBits = u ++ [bits] :=
        ⟨_, getLast?_decomp hbl⟩
      simp only [hst, hgs, htr, hbt] at h1 h2 h3
      refine ⟨?_, ?_, ?_⟩ <;>
        simp only [StackInv, hst, hgs, htr, hbt, List.dropLast_concat,
          List.filter_append, List.length_append] <;>
        simp_all <;> omega

/-- C1 (amended): across the scope Begin/End directives the transform and
active-bits stacks always have equal length, and the graphics-state stack
tracks exactly the open attribute/object scopes — so its length is at most
theirs, with equality only when no `TransformBegin` scope is open.
(`TransformBegin` pushes only two of the three stacks, so full three-way
equality does not hold.) -/
theorem scope_stack_discipline (d : Directive) (t t' : GeneralScene)
    (hd : d.isScope = true) (hi : StackInv t) (h : stepD d t = .ok t') :
    StackInv t' ∧
    t.pushedTransforms.length = t.pushedActiveTransformBits.length ∧
    t.pushedGraphicsStates.length ≤ t.pushedTransforms.length ∧
    t'.pushedTransforms.length = t'.pushedActiveTransformBits.length ∧
    t'.pushedGraphicsStates.length ≤ t'.pushedTransforms.length ∧
    StackInv GeneralScene.initScene := by
  have hi' := scope_step_stack_inv hd h hi
  obtain ⟨a1, a2, a3⟩ := hi
  obtain ⟨b1, b2, b3⟩ := hi'
  refine ⟨⟨b1, b2, b3⟩, a1.trans a2.symm, ?_, b1.trans b2.symm, ?_, by decide⟩
  · rw [a3, a1]
    exact List.length_filter_le _ _
  · rw [b3, b1]
    exact List.length_filter_le _ _

/-- Concrete instantiation of `scope_stack_discipline`. -/
theorem scope_stack_discipline_witness :
    Directive.isScope (.attributeBegin 1) = true ∧
    StackInv (runOr [.worldBegin 0]) ∧
    stepD (.attributeBegin 1) (runOr [.worldBegin 0]) =
      .ok (runOr [.worldBegin 0, .attributeBegin 1]) ∧
    (StackInv (runOr [.worldBegin 0, .attributeBegin 1]) ∧
     (runOr [.worldBegin 0]).pushedTransforms.length =
       (runOr [.worldBegin 0]).pushedActiveTransformBits.length ∧
     (runOr [.worldBegin 0]).pushedGraphicsStates.length ≤
       (runOr [.worldBegin 0]).pushedTransforms.length ∧
     (runOr [.worldBegin 0, .attributeBegin 1]).pushedTransforms.length =
       (runOr [.worldBegin 0, .attributeBegin 1]).pushedActiveTransformBits.length ∧
     (runOr [.worldBegin 0, .attributeBegin 1]).pushedGraphicsStates.length ≤
       (runOr [.worldBegin 0, .attributeBegin 1]).pushedTransforms.length ∧
     StackInv GeneralScene.initScene) :=
  ⟨by decide, by decide, by rfl,
   scope_stack_discipline (.attributeBegin 1) (runOr [.worldBegin 0])
     (runOr [.worldBegin 0, .attributeBegin 1]) (by decide) (by decide) (by rfl)⟩

/-- C1 counterexample: a single `TransformBegin` in the world block leaves
the graphics-state stack with length 0 while the transform and active-bits
stacks have length 1 — the three stacks are not kept at equal length. -/
theorem stack_length_counterexample :
    stackLengthsAfter [.worldBegin 0, .transformBegin 1] GeneralScene.initScene =
      some (0, 1, 1) ∧ (0 : ℕ) ≠ 1 := by
  decide

set_option maxHeartbeats 2000000 in
theorem step_material_invariant {d : Directive} {t t' : GeneralScene}
    (hd : d.namedMaterialNonempty = true)
    (h : stepD d t = .ok t') (hi : MaterialInvariant t) : MaterialInvariant t' := by
  obtain ⟨hg, hstack⟩ := hi
  cases d
  case material name params loc =>
    rcases material_ok_cases h with rfl | rfl
    · exact ⟨hg, hstack⟩
    · exact ⟨Or.inl ⟨Int.natCast_nonneg _, rfl⟩, hstack⟩
  case namedMaterial name loc =>
    have hne : name ≠ "" := by
      simpa [Directive.namedMaterialNonempty] using hd
    rcases namedMaterial_ok_cases h with rfl | rfl
    · exact ⟨hg, hstack⟩
    · exact ⟨Or.inr ⟨rfl, hne⟩, hstack⟩
  case attributeBegin loc =>
    rcases attributeBegin_ok_cases h with rfl | rfl
    · exact ⟨hg, hstack⟩
    · refine ⟨hg, fun g2 hg2 => ?_⟩
      rcases List.mem_append.mp hg2 with h1 | h1
      · exact hstack g2 h1
      · rw [List.mem_singleton.mp h1]
        exact hg
  case objectBegin name loc =>
    rcases objectBegin_ok_cases h with rfl | ⟨hci, hid, rfl⟩
    · exact ⟨hg, hstack⟩
    · refine ⟨hg, fun g2 hg2 => ?_⟩
      rcases List.mem_append.mp hg2 with h1 | h1
      · exact hstack g2 h1
      · rw [List.mem_singleton.mp h1]
        exact hg
  case attributeEnd loc =>
    rcases attributeEnd_ok_cases h with rfl | ⟨g, ts, bits, l2, hgl, htl, hbl, hkl, rfl⟩
    · exact ⟨hg, hstack⟩
    · exact ⟨hstack g (mem_of_getLast?M hgl),
        fun g2 hg2 => hstack g2 (mem_of_dropLastM hg2)⟩
  case objectEnd loc =>
    rcases objectEnd_ok_cases h with rfl | ⟨g, ts, bits, l2, hci, hgl, htl, hbl, hkl, rfl⟩
    · exact ⟨hg, hstack⟩
    · exact ⟨hstack g (mem_of_getLast?M hgl),
        fun g2 hg2 => hstack g2 (mem_of_dropLastM hg2)⟩
  case worldEnd loc =>
    rcases worldEnd_ok_cases h with rfl | ⟨w, rfl⟩
    · exact ⟨hg, hstack⟩
    · exact ⟨hg, by simp⟩
  case shape name params loc =>
    obtain ⟨hgs, hpgs, _, _, _, _⟩ := shape_ok_frame h
    exact ⟨by rw [hgs]; exact hg, by rw [hpgs]; exact hstack⟩
  all_goals
    simp only [stepD, GeneralScene.Identity, GeneralScene.Translate,
      GeneralScene.TransformDirective, GeneralScene.ConcatTransform,
      GeneralScene.Rotate, GeneralScene.Scale, GeneralScene.LookAt,
      GeneralScene.CoordinateSystem, GeneralScene.CoordSysTransform,
      GeneralScene.ActiveTransformAll, GeneralScene.ActiveTransformEndTime,
      GeneralScene.ActiveTransformStartTime, GeneralScene.TransformTimes,
      GeneralScene.ColorSpace, GeneralScene.PixelFilter, GeneralScene.Film,
      GeneralScene.Sampler, GeneralScene.Accelerator, GeneralScene.Integrator,
      GeneralScene.Camera, GeneralScene.MakeNamedMedium,
      GeneralScene.MediumInterface, GeneralScene.WorldBegin,
      GeneralScene.Attribute, GeneralScene.Texture, GeneralScene.LightSource,
      GeneralScene.AreaLightSource, GeneralScene.MakeNamedMaterial,
      GeneralScene.ReverseOrientation, GeneralScene.TransformBegin,
      GeneralScene.TransformEnd, GeneralScene.ObjectInstance,
      verifyInitialized, verifyOptions, verifyWorld, recErr, warn1] at h
  all_goals try simp only [reduceIte] at h
  all_goals (repeat' split at h)
  all_goals try exact Except.noConfusion h
  all_goals injection h with h2
  all_goals rw [← h2]
  all_goals exact ⟨hg, hstack⟩

/-- C9 (amended): with a non-empty `NamedMaterial` argument the
material-reference discipline holds: `Material` appends to the ordered
list, points the index at the new last position and clears the name;
`NamedMaterial` records the name and the −1 sentinel; exactly one of
{index ≥ 0, name non-empty} stays authoritative on the live and every
stacked graphics state.  (`NamedMaterial ""` breaks the invariant, so the
original "for every argument value" fails.) -/
theorem material_reference_discipline (t : GeneralScene) (name : String)
    (params : ParsedParameterVector) (loc : FileLoc)
    (hw : t.currentApiState = .worldBlock) (hne : name ≠ "") :
    MaterialDiscipline t name params loc := by
  have h1 : (t.currentApiState = APIState.uninitialized) = False := by simp [hw]
  have h2 : (t.currentApiState = APIState.optionsBlock) = False := by simp [hw]
  refine ⟨?_, ?_, fun d u u' hd hi hstep => step_material_invariant hd hstep hi⟩
  · refine ⟨{ t with
        materials := t.materials ++
          [(⟨name, mkDict params t.graphicsState.materialAttributes
            t.graphicsState.colorSpace, loc⟩ : GeneralSceneEntity)],
        graphicsState := { t.graphicsState with
          currentMaterialIndex :=
            ((t.materials ++
              [(⟨name, mkDict params t.graphicsState.materialAttributes
                t.graphicsState.colorSpace, loc⟩ : GeneralSceneEntity)]).length : Int) - 1,
          currentMaterialName := "" } }, ?_, ?_, ?_, ?_, ?_, ?_⟩
    · simp only [stepD, GeneralScene.Material, verifyWorld, verifyInitialized,
        h1, h2, if_false]
    · simp
    · simp
      try omega
    · simp
      try omega
    · simp
    · exact Or.inl ⟨by simp; try omega, by simp⟩
  · refine ⟨{ t with graphicsState := { t.graphicsState with
        currentMaterialName := name, currentMaterialIndex := -1 } },
      ?_, ?_, ?_, ?_⟩
    · simp only [stepD, GeneralScene.NamedMaterial, verifyWorld,
        verifyInitialized, h1, h2, if_false]
    · simp
    · simp
    · exact Or.inr ⟨by simp, by simpa using hne⟩

/-- Concrete instantiation of `material_reference_discipline`. -/
theorem material_reference_discipline_witness :
    (runOr [.worldBegin 0]).currentApiState = APIState.worldBlock ∧
    ("steel" : String) ≠ "" ∧
    MaterialDiscipline (runOr [.worldBegin 0]) "steel" [] 1 :=
  ⟨by decide, by decide,
   material_reference_discipline (runOr [.worldBegin 0]) "steel" [] 1
     (by decide) (by decide)⟩

/-- C9 counterexample: `NamedMaterial ""` is accepted and leaves the
graphics state with index −1 and an empty name — neither reference is
authoritative, refuting the claim for every argument value. -/
theorem named_material_empty_name_counterexample :
    (graphicsStateAfter [.worldBegin 0, .namedMaterial "" 1]
      GeneralScene.initScene).map
        (fun g => (g.currentMaterialIndex, g.currentMaterialName)) =
      some (-1, "") ∧
    (graphicsStateAfter [.worldBegin 0, .namedMaterial "" 1]
      GeneralScene.initScene).map
        (fun g => decide (MaterialRefAuthoritative g)) = some false := by
  decide

set_option maxHeartbeats 2000000 in
theorem step_default_material {d : Directive} {t t' : GeneralScene}
    (hd : d.leavesMaterialRef = true) (h : stepD d t = .ok t')
    (hi : DefaultMaterialOnly t) :
    DefaultMaterialOnly t' ∧ t'.materials = t.materials := by
  obtain ⟨hidx, hname, hstack, hsh, hash, hinst⟩ := hi
  cases d
  case material name params loc => simp [Directive.leavesMaterialRef] at hd
  case namedMaterial name loc => simp [Directive.leavesMaterialRef] at hd
  case attributeBegin loc =>
    rcases attributeBegin_ok_cases h with rfl | rfl
    · exact ⟨⟨hidx, hname, hstack, hsh, hash, hinst⟩, rfl⟩
    · refine ⟨⟨hidx, hname, fun g2 hg2 => ?_, hsh, hash, hinst⟩, rfl⟩
      rcases List.mem_append.mp hg2 with hg3 | hg3
      · exact hstack g2 hg3
      · rw [List.mem_singleton.mp hg3]
        exact ⟨hidx, hname⟩
  case objectBegin name loc =>
    rcases objectBegin_ok_cases h with rfl | ⟨hci, hid, rfl⟩
    · exact ⟨⟨hidx, hname, hstack, hsh, hash, hinst⟩, rfl⟩
    · refine ⟨⟨hidx, hname, fun g2 hg2 => ?_, hsh, hash, fun nm pr' hpr => ?_⟩, rfl⟩
      · rcases List.mem_append.mp hg2 with hg3 | hg3
        · exact hstack g2 hg3
        · rw [List.mem_singleton.mp hg3]
          exact ⟨hidx, hname⟩
      · simp only [updateMap] at hpr
        by_cases hnm : nm = name
        · rw [if_pos hnm] at hpr
          injection hpr with hpr
          rw [← hpr]
          exact ⟨by simp, by simp⟩
        · rw [if_neg hnm] at hpr
          exact hinst nm pr' hpr
  case attributeEnd loc =>
    rcases attributeEnd_ok_cases h with rfl | ⟨g, ts, bits, l2, hgl, htl, hbl, hkl, rfl⟩
    · exact ⟨⟨hidx, hname, hstack, hsh, hash, hinst⟩, rfl⟩
    · obtain ⟨hgi, hgn⟩ := hstack g (mem_of_getLast?M hgl)
      exact ⟨⟨hgi, hgn, fun g2 hg2 => hstack g2 (mem_of_dropLastM hg2),
        hsh, hash, hinst⟩, rfl⟩
  case objectEnd loc =>
    rcases objectEnd_ok_cases h with rfl | ⟨g, ts, bits, l2, hci, hgl, htl, hbl, hkl, rfl⟩
    · exact ⟨⟨hidx, hname, hstack, hsh, hash, hinst⟩, rfl⟩
    · obtain ⟨hgi, hgn⟩ := hstack g (mem_of_getLast?M hgl)
      exact ⟨⟨hgi, hgn, fun g2 hg2 => hstack g2 (mem_of_dropLastM hg2),
        hsh, hash, hinst⟩, rfl⟩
  case worldEnd loc =>
    rcases worldEnd_ok_cases h with rfl | ⟨w, rfl⟩
    · exact ⟨⟨hidx, hname, hstack, hsh, hash, hinst⟩, rfl⟩
    · exact ⟨⟨hidx, hname, by simp, hsh, hash, hinst⟩, rfl⟩
  case shape name params loc =>
    obtain ⟨hgs, hpgs, hmats, hsh', hash', hinst'⟩ := shape_ok_frame h
    refine ⟨⟨by rw [hgs]; exact hidx, by rw [hgs]; exact hname,
      by rw [hpgs]; exact hstack, fun e he => ?_, fun e he => ?_,
      fun nm pr' hpr => ?_⟩, hmats⟩
    · rcases hsh' e he with h1 | h1
      · exact hsh e h1
      · rw [h1, hidx]
    · rcases hash' e he with h1 | h1
      · exact hash e h1
      · rw [h1, hidx]
    · obtain ⟨hc1, hc2⟩ := hinst' nm pr' hpr
      refine ⟨fun e he => ?_, fun e he => ?_⟩
      · rcases hc1 e he with ⟨pr, hpr2, he2⟩ | h1
        · exact (hinst nm pr hpr2).1 e he2
        · rw [h1, hidx]
      · rcases hc2 e he with ⟨pr, hpr2, he2⟩ | h1
        · exact (hinst nm pr hpr2).2 e he2
        · rw [h1, hidx]
  all_goals
    simp only [stepD, GeneralScene.Identity, GeneralScene.Translate,
      GeneralScene.TransformDirective, GeneralScene.ConcatTransform,
      GeneralScene.Rotate, GeneralScene.Scale, GeneralScene.LookAt,
      GeneralScene.CoordinateSystem, GeneralScene.CoordSysTransform,
      GeneralScene.ActiveTransformAll, GeneralScene.ActiveTransformEndTime,
      GeneralScene.ActiveTransformStartTime, GeneralScene.TransformTimes,
      GeneralScene.ColorSpace, GeneralScene.PixelFilter, GeneralScene.Film,
      GeneralScene.Sampler, GeneralScene.Accelerator, GeneralScene.Integrator,
      GeneralScene.Camera, GeneralScene.MakeNamedMedium,
      GeneralScene.MediumInterface, GeneralScene.WorldBegin,
      GeneralScene.Attribute, GeneralScene.Texture, GeneralScene.LightSource,
      GeneralScene.AreaLightSource, GeneralScene.MakeNamedMaterial,
      GeneralScene.ReverseOrientation, GeneralScene.TransformBegin,
      GeneralScene.TransformEnd, GeneralScene.ObjectInstance,
      verifyInitialized, verifyOptions, verifyWorld, recErr, warn1] at h
  all_goals try simp only [reduceIte] at h
  all_goals (repeat' split at h)
  all_goals try exact Except.noConfusion h
  all_goals injection h with h2
  all_goals rw [← h2]
  all_goals exact ⟨⟨hidx, hname, hstack, hsh, hash, hinst⟩, rfl⟩

theorem exec_not_uninitialized {ds : List Directive} {t t' : GeneralScene}
    (hx : execList ds t = .ok t') (hnu : t.currentApiState ≠ .uninitialized) :
    t'.currentApiState ≠ .uninitialized := by
  induction ds generalizing t with
  | nil =>
    unfold execList at hx
    injection hx with hx
    rw [← hx]
    exact hnu
  | cons d rest ih =>
    unfold execList at hx
    cases hstep : stepD d t with
    | error e => rw [hstep] at hx; exact Except.noConfusion hx
    | ok t1 =>
      rw [hstep] at hx
      exact ih hx (stepD_apiState_not_uninitialized hstep hnu)

theorem exec_default_material {ds : List Directive} {t t' : GeneralScene}
    (hmat : ∀ d ∈ ds, d.leavesMaterialRef = true)
    (hx : execList ds t = .ok t') (hi : DefaultMaterialOnly t) :
    DefaultMaterialOnly t' ∧ t'.materials = t.materials := by
  induction ds generalizing t with
  | nil =>
    unfold execList at hx
    injection hx with hx
    rw [← hx]
    exact ⟨hi, rfl⟩
  | cons d rest ih =>
    unfold execList at hx
    cases hstep : stepD d t with
    | error e => rw [hstep] at hx; exact Except.noConfusion hx
    | ok t1 =>
      rw [hstep] at hx
      obtain ⟨hi1, hm1⟩ := step_default_material (hmat d (by simp)) hstep hi
      obtain ⟨hi2, hm2⟩ := ih (fun d2 hd2 => hmat d2 (List.mem_cons_of_mem d hd2)) hx hi1
      exact ⟨hi2, hm2.trans hm1⟩

/-- C10: a fresh scene container starts directly in the options block (the
uninitialized state is never observable along any run), its ordered
material list already holds the default "diffuse" material at index 0, the
graphics state's current material index starts at 0, and along any run
containing no Material/NamedMaterial directive every accumulated shape
still references material index 0 — the default diffuse material. -/
theorem fresh_scene_defaults (ds : List Directive) (s' : GeneralScene)
    (hmat : ∀ d ∈ ds, d.leavesMaterialRef = true)
    (hrun : execList ds GeneralScene.initScene = .ok s') :
    GeneralScene.initScene.currentApiState = APIState.optionsBlock ∧
    GeneralScene.initScene.materials = [⟨"diffuse", ⟨[], [], "sRGB"⟩, 0⟩] ∧
    GeneralScene.initScene.graphicsState.currentMaterialIndex = 0 ∧
    s'.currentApiState ≠ APIState.uninitialized ∧
    s'.materials = [⟨"diffuse", ⟨[], [], "sRGB"⟩, 0⟩] ∧
    DefaultMaterialOnly s' := by
  have hinit : DefaultMaterialOnly GeneralScene.initScene := by
    refine ⟨rfl, rfl, by simp [GeneralScene.initScene], by simp [GeneralScene.initScene],
      by simp [GeneralScene.initScene], ?_⟩
    intro nm pr hpr
    simp [GeneralScene.initScene] at hpr
  obtain ⟨hdm, hmats⟩ := exec_default_material hmat hrun hinit
  exact ⟨rfl, rfl, rfl,
    exec_not_uninitialized hrun (by simp [GeneralScene.initScene]),
    hmats, hdm⟩

/-- Concrete instantiation of `fresh_scene_defaults`. -/
theorem fresh_scene_defaults_witness :
    (∀ d ∈ [Directive.worldBegin 0, Directive.shape "sphere" [] 1],
      d.leavesMaterialRef = true) ∧
    execList [Directive.worldBegin 0, Directive.shape "sphere" [] 1]
      GeneralScene.initScene =
      .ok (runOr [Directive.worldBegin 0, Directive.shape "sphere" [] 1]) ∧
    (GeneralScene.initScene.currentApiState = APIState.optionsBlock ∧
     GeneralScene.initScene.materials = [⟨"diffuse", ⟨[], [], "sRGB"⟩, 0⟩] ∧
     GeneralScene.initScene.graphicsState.currentMaterialIndex = 0 ∧
     (runOr [Directive.worldBegin 0, Directive.shape "sphere" [] 1]).currentApiState ≠
       APIState.uninitialized ∧
     (runOr [Directive.worldBegin 0, Directive.shape "sphere" [] 1]).materials =
       [⟨"diffuse", ⟨[], [], "sRGB"⟩, 0⟩] ∧
     DefaultMaterialOnly (runOr [Directive.worldBegin 0, Directive.shape "sphere" [] 1])) :=
  ⟨by decide, by rfl,
   fresh_scene_defaults [Directive.worldBegin 0, Directive.shape "sphere" [] 1]
     (runOr [Directive.worldBegin 0, Directive.shape "sphere" [] 1])
     (by decide) (by rfl)⟩

set_option maxHeartbeats 2000000 in
theorem stepD_world_preserved {d : Directive} {t t' : GeneralScene}
    (h : stepD d t = .ok t') (hw : t.currentApiState = .worldBlock) :
    t'.currentApiState = .worldBlock := by
  cases d
  all_goals
    simp only [stepD, GeneralScene.Identity, GeneralScene.Translate,
      GeneralScene.TransformDirective, GeneralScene.ConcatTransform,
      GeneralScene.Rotate, GeneralScene.Scale, GeneralScene.LookAt,
      GeneralScene.CoordinateSystem, GeneralScene.CoordSysTransform,
      GeneralScene.ActiveTransformAll, GeneralScene.ActiveTransformEndTime,
      GeneralScene.ActiveTransformStartTime, GeneralScene.TransformTimes,
      GeneralScene.ColorSpace, GeneralScene.PixelFilter, GeneralScene.Film,
      GeneralScene.Sampler, GeneralScene.Accelerator, GeneralScene.Integrator,
      GeneralScene.Camera, GeneralScene.MakeNamedMedium,
      GeneralScene.MediumInterface, GeneralScene.WorldBegin,
      GeneralScene.AttributeBegin, GeneralScene.AttributeEnd,
      GeneralScene.Attribute, GeneralScene.TransformBegin,
      GeneralScene.TransformEnd, GeneralScene.Texture, GeneralScene.Material,
      GeneralScene.MakeNamedMaterial, GeneralScene.NamedMaterial,
      GeneralScene.LightSource, GeneralScene.AreaLightSource,
      GeneralScene.Shape, GeneralScene.ReverseOrientation,
      GeneralScene.ObjectBegin, GeneralScene.ObjectEnd,
      GeneralScene.ObjectInstance, GeneralScene.WorldEnd,
      verifyInitialized, verifyOptions, verifyWorld, recErr, warn1] at h
  all_goals try simp only [reduceIte] at h
  all_goals (repeat' split at h)
  all_goals try exact Except.noConfusion h
  all_goals try (injection h with h2; rw [← h2]; first | exact hw | rfl)
  all_goals (injections; subst_vars; first | exact hw | rfl)

theorem exec_world_preserved {ds : List Directive} {t t' : GeneralScene}
    (hx : execList ds t = .ok t') (hw : t.currentApiState = .worldBlock) :
    t'.currentApiState = .worldBlock := by
  induction ds generalizing t with
  | nil =>
    unfold execList at hx
    injection hx with hx
    rw [← hx]
    exact hw
  | cons d rest ih =>
    unfold execList at hx
    cases hstep : stepD d t with
    | error e => rw [hstep] at hx; exact Except.noConfusion hx
    | ok t1 =>
      rw [hstep] at hx
      exact ih hx (stepD_world_preserved hstep hw)

set_option maxHeartbeats 2000000 in
theorem stepD_gsStack_cases {d : Directive} {t t' : GeneralScene}
    (h : stepD d t = .ok t') :
    t'.pushedGraphicsStates = t.pushedGraphicsStates ∨
    t'.pushedGraphicsStates = t.pushedGraphicsStates ++ [t.graphicsState] ∨
    t'.pushedGraphicsStates = t.pushedGraphicsStates.dropLast ∨
    t'.pushedGraphicsStates = [] := by
  cases d
  case attributeBegin loc =>
    rcases attributeBegin_ok_cases h with rfl | rfl
    · exact Or.inl rfl
    · exact Or.inr (Or.inl rfl)
  case objectBegin name loc =>
    rcases objectBegin_ok_cases h with rfl | ⟨hci, hid, rfl⟩
    · exact Or.inl rfl
    · exact Or.inr (Or.inl rfl)
  case attributeEnd loc =>
    rcases attributeEnd_ok_cases h with rfl | ⟨g, ts, bits, l2, hgl, htl, hbl, hkl, rfl⟩
    · exact Or.inl rfl
    · exact Or.inr (Or.inr (Or.inl rfl))
  case objectEnd loc =>
    rcases objectEnd_ok_cases h with rfl | ⟨g, ts, bits, l2, hci, hgl, htl, hbl, hkl, rfl⟩
    · exact Or.inl rfl
    · exact Or.inr (Or.inr (Or.inl rfl))
  case worldEnd loc =>
    rcases worldEnd_ok_cases h with rfl | ⟨w, rfl⟩
    · exact Or.inl rfl
    · exact Or.inr (Or.inr (Or.inr rfl))
  case shape name params loc =>
    exact Or.inl (shape_ok_frame h).2.1
  all_goals
    simp only [stepD, GeneralScene.Identity, GeneralScene.Translate,
      GeneralScene.TransformDirective, GeneralScene.ConcatTransform,
      GeneralScene.Rotate, GeneralScene.Scale, GeneralScene.LookAt,
      GeneralScene.CoordinateSystem, GeneralScene.CoordSysTransform,
      GeneralScene.ActiveTransformAll, GeneralScene.ActiveTransformEndTime,
      GeneralScene.ActiveTransformStartTime, GeneralScene.TransformTimes,
      GeneralScene.ColorSpace, GeneralScene.PixelFilter, GeneralScene.Film,
      GeneralScene.Sampler, GeneralScene.Accelerator, GeneralScene.Integrator,
      GeneralScene.Camera, GeneralScene.MakeNamedMedium,
      GeneralScene.MediumInterface, GeneralScene.WorldBegin,
      GeneralScene.Attribute, GeneralScene.TransformBegin,
      GeneralScene.TransformEnd, GeneralScene.Texture, GeneralScene.Material,
      GeneralScene.MakeNamedMaterial, GeneralScene.NamedMaterial,
      GeneralScene.LightSource, GeneralScene.AreaLightSource,
      GeneralScene.ReverseOrientation, GeneralScene.ObjectInstance,
      verifyInitialized, verifyOptions, verifyWorld, recErr, warn1] at h
  all_goals try simp only [reduceIte] at h
  all_goals (repeat' split at h)
  all_goals try exact Except.noConfusion h
  all_goals injection h with h2
  all_goals rw [← h2]
  all_goals exact Or.inl rfl

theorem gsStack_take_of_step {d : Directive} {t t' : GeneralScene} {n : ℕ}
    (h : stepD d t = .ok t') (hs : n ≤ t.pushedGraphicsStates.length)
    (hs' : n ≤ t'.pushedGraphicsStates.length) :
    t'.pushedGraphicsStates.take n = t.pushedGraphicsStates.take n := by
  rcases stepD_gsStack_cases h with he | he | he | he <;> rw [he]
  · exact List.take_append_of_le_length hs
  · rw [he] at hs'
    rw [List.dropLast_eq_take, List.take_take]
    congr 1
    rw [List.length_dropLast] at hs'
    omega
  · rw [he] at hs'
    simp at hs'
    subst hs'
    simp

theorem exec_gsStack_take {ds : List Directive} {t t' : GeneralScene} {n : ℕ}
    (hx : execList ds t = .ok t') (hsafe : gsSafeRun n t ds = true)
    (hn : n ≤ t.pushedGraphicsStates.length) :
    t'.pushedGraphicsStates.take n = t.pushedGraphicsStates.take n ∧
    n ≤ t'.pushedGraphicsStates.length := by
  induction ds generalizing t with
  | nil =>
    unfold execList at hx
    injection hx with hx
    rw [← hx]
    exact ⟨rfl, hn⟩
  | cons d rest ih =>
    unfold execList at hx
    unfold gsSafeRun at hsafe
    cases hstep : stepD d t with
    | error e => rw [hstep] at hx; exact Except.noConfusion hx
    | ok t1 =>
      rw [hstep] at hx hsafe
      simp only [Bool.and_eq_true, decide_eq_true_eq] at hsafe
      obtain ⟨h1, h2⟩ := hsafe
      obtain ⟨ht, hlen⟩ := ih hx h2 h1
      exact ⟨ht.trans (gsStack_take_of_step hstep hn h1), hlen⟩

theorem getLast?_isSome_of_ne_nil {α : Type} :
    ∀ {l : List α}, l ≠ [] → ∃ x, l.getLast? = some x := by
  intro l
  induction l with
  | nil => intro hne; exact absurd rfl hne
  | cons a l ih =>
    intro _
    cases l with
    | nil => exact ⟨a, rfl⟩
    | cons b l2 =>
      obtain ⟨x, hx⟩ := ih (by simp)
      exact ⟨x, by rwa [List.getLast?_cons_cons]⟩

theorem attributeBegin_world (loc : FileLoc) (t : GeneralScene)
    (hw : t.currentApiState = .worldBlock) :
    stepD (.attributeBegin loc) t = .ok { t with
      pushedGraphicsStates := t.pushedGraphicsStates ++ [t.graphicsState],
      pushedTransforms := t.pushedTransforms ++ [t.curTransform],
      pushedActiveTransformBits :=
        t.pushedActiveTransformBits ++ [t.activeTransformBits],
      pushStack := t.pushStack ++ [(PushKind.a, loc)] } := by
  have h1 : (t.currentApiState = APIState.uninitialized) = False := by simp [hw]
  have h2 : (t.currentApiState = APIState.optionsBlock) = False := by simp [hw]
  simp [stepD, GeneralScene.AttributeBegin, verifyWorld, verifyInitialized,
    h1, h2]

theorem attributeEnd_world_pop {loc : FileLoc} {t t' : GeneralScene}
    (hw : t.currentApiState = .worldBlock) (hne : t.pushedGraphicsStates ≠ [])
    (h : stepD (.attributeEnd loc) t = .ok t') :
    ∃ g, t.pushedGraphicsStates.getLast? = some g ∧ t'.graphicsState = g := by
  have hu : ¬t.currentApiState = .uninitialized := by simp [hw]
  have ho : ¬t.currentApiState = .optionsBlock := by simp [hw]
  obtain ⟨g, hgl⟩ := getLast?_isSome_of_ne_nil hne
  refine ⟨g, hgl, ?_⟩
  cases htl : t.pushedTransforms.getLast? with
  | none =>
    exfalso
    simp [stepD, GeneralScene.AttributeEnd, verifyWorld, verifyInitialized,
      hu, ho, hne, hgl, htl] at h
  | some ts =>
    cases hbl : t.pushedActiveTransformBits.getLast? with
    | none =>
      exfalso
      simp [stepD, GeneralScene.AttributeEnd, verifyWorld, verifyInitialized,
        hu, ho, hne, hgl, htl, hbl] at h
    | some bits =>
      cases hkl : t.pushStack.getLast? with
      | none =>
        exfalso
        simp [stepD, GeneralScene.AttributeEnd, verifyWorld, verifyInitialized,
          hu, ho, hne, hgl, htl, hbl, hkl] at h
      | some kl =>
        obtain ⟨k, l2⟩ := kl
        cases k with
        | t =>
          exfalso
          simp [stepD, GeneralScene.AttributeEnd, verifyWorld, verifyInitialized,
            hu, ho, hne, hgl, htl, hbl, hkl] at h
        | o =>
          exfalso
          simp [stepD, GeneralScene.AttributeEnd, verifyWorld, verifyInitialized,
            hu, ho, hne, hgl, htl, hbl, hkl] at h
        | a =>
          simp [stepD, GeneralScene.AttributeEnd, verifyWorld, verifyInitialized,
            hu, ho, hne, hgl, htl, hbl, hkl] at h
          rw [← h]

/-- C5: for a well-nested `AttributeBegin`/`AttributeEnd` pair in the
world block — the intermediate directives never drain the saved
graphics-state entry and return the stack to its begin depth — the
graphics state after the matching `AttributeEnd` equals the graphics state
immediately before the `AttributeBegin`. -/
theorem attribute_scope_restores_graphics_state
    (s s1 s2 s3 : GeneralScene) (ds : List Directive) (loc loc2 : FileLoc)
    (hw : s.currentApiState = .worldBlock)
    (hbegin : stepD (.attributeBegin loc) s = .ok s1)
    (hsafe : gsSafeRun (s.pushedGraphicsStates.length + 1) s1 ds = true)
    (hrun : execList ds s1 = .ok s2)
    (hmatch : s2.pushedGraphicsStates.length = s.pushedGraphicsStates.length + 1)
    (hend : stepD (.attributeEnd loc2) s2 = .ok s3) :
    s3.graphicsState = s.graphicsState := by
  rw [attributeBegin_world loc s hw] at hbegin
  injection hbegin with hbegin
  have hpgs1 : s1.pushedGraphicsStates =
      s.pushedGraphicsStates ++ [s.graphicsState] := by
    rw [← hbegin]
  have hws1 : s1.currentApiState = .worldBlock := by
    rw [← hbegin]
    exact hw
  have hn1 : s.pushedGraphicsStates.length + 1 ≤ s1.pushedGraphicsStates.length := by
    rw [hpgs1]
    simp
  obtain ⟨htake, hlen2⟩ := exec_gsStack_take hrun hsafe hn1
  have hs2 : s2.pushedGraphicsStates =
      s.pushedGraphicsStates ++ [s.graphicsState] := by
    have e1 : s2.pushedGraphicsStates.take (s.pushedGraphicsStates.length + 1) =
        s2.pushedGraphicsStates := by
      apply List.take_of_length_le
      omega
    have e2 : s1.pushedGraphicsStates.take (s.pushedGraphicsStates.length + 1) =
        s1.pushedGraphicsStates := by
      apply List.take_of_length_le
      rw [hpgs1]
      simp
    rw [← e1, htake, e2, hpgs1]
  have hne : s2.pushedGraphicsStates ≠ [] := by
    rw [hs2]
    simp
  have hw2 : s2.currentApiState = .worldBlock := exec_world_preserved hrun hws1
  obtain ⟨g, hgl, hgs3⟩ := attributeEnd_world_pop hw2 hne hend
  rw [hs2, List.getLast?_concat] at hgl
  injection hgl with hgl
  rw [hgs3, ← hgl]

/-- Concrete instantiation of `attribute_scope_restores_graphics_state`:
an attribute block whose body flips the orientation flag restores the
graphics state on exit. -/
theorem attribute_scope_restores_graphics_state_witness :
    (runOr [.worldBegin 0]).currentApiState = APIState.worldBlock ∧
    stepD (.attributeBegin 1) (runOr [.worldBegin 0]) =
      .ok (runOr [.worldBegin 0, .attributeBegin 1]) ∧
    gsSafeRun ((runOr [.worldBegin 0]).pushedGraphicsStates.length + 1)
      (runOr [.worldBegin 0, .attributeBegin 1]) [.reverseOrientation 2] = true ∧
    execList [.reverseOrientation 2] (runOr [.worldBegin 0, .attributeBegin 1]) =
      .ok (runOr [.worldBegin 0, .attributeBegin 1, .reverseOrientation 2]) ∧
    (runOr [.worldBegin 0, .attributeBegin 1, .reverseOrientation 2]).pushedGraphicsStates.length =
      (runOr [.worldBegin 0]).pushedGraphicsStates.length + 1 ∧
    stepD (.attributeEnd 3)
      (runOr [.worldBegin 0, .attributeBegin 1, .reverseOrientation 2]) =
      .ok (runOr [.worldBegin 0, .attributeBegin 1, .reverseOrientation 2,
        .attributeEnd 3]) ∧
    (runOr [.worldBegin 0, .attributeBegin 1, .reverseOrientation 2,
      .attributeEnd 3]).graphicsState = (runOr [.worldBegin 0]).graphicsState :=
  ⟨by decide, by rfl, by decide, by rfl, by decide, by rfl,
   attribute_scope_restores_graphics_state (runOr [.worldBegin 0])
     (runOr [.worldBegin 0, .attributeBegin 1])
     (runOr [.worldBegin 0, .attributeBegin 1, .reverseOrientation 2])
     (runOr [.worldBegin 0, .attributeBegin 1, .reverseOrientation 2,
       .attributeEnd 3])
     [.reverseOrientation 2] 1 3 (by decide) (by rfl) (by decide) (by rfl)
     (by decide) (by rfl)⟩

end PbrtScene
